import Mathlib

/-!
Verification of the Cinta Beauty demo-data generator (`demo_data.py`).

The Python program is shallowly embedded: machine floats are modelled as
exact rationals, Python `round` as round-half-to-even on rationals, the
seeded pseudo-random source as a family of draws in `[0, 1)` (one draw
function per call site, written `o i j` for site `i`, iteration `j`),
and pandas DataFrames as association lists from column names to lists of
cell values.  Fallible operations (`random.choice` on a possibly-empty
list, `next(...)` on an iterator) return `Option`, mirroring the Python
exceptions that abort a generation run.
-/

namespace DemoData

/-! ## Randomness primitives

`random.random()` yields a value in `[0, 1)`; every other draw in the
source is derived from such draws.  An *oracle* `o : ℕ → ℕ → ℚ` gives the
draw at call site `i`, loop iteration `j`; admissibility says every draw
lies in `[0, 1)`. -/

def unit01 (q : ℚ) : Prop := 0 ≤ q ∧ q < 1

def Adm (o : ℕ → ℕ → ℚ) : Prop := ∀ i j, unit01 (o i j)

/-- `random.randint(a, b)`: uniform integer in `[a, b]` (both ends included). -/
def randint (a b : ℤ) (u : ℚ) : ℤ := a + ⌊u * ((b : ℚ) - (a : ℚ) + 1)⌋

/-- `random.uniform(a, b)`: uniform rational in `[a, b]`. -/
def uniform (a b : ℚ) (u : ℚ) : ℚ := a + u * (b - a)

/-- `random.random()` itself: the raw draw. -/
def rand (u : ℚ) : ℚ := u

/-- `random.choice(l)` on a list that may be empty: `none` models the
`IndexError` Python raises on an empty sequence. -/
def choice {α : Type} (l : List α) (u : ℚ) : Option α :=
  l.get? (⌊u * (l.length : ℚ)⌋).toNat

/-- `random.choice(l)` on a list known to be non-empty (a literal in the
source).  The index is reduced modulo the length so the function is total;
for admissible draws the modulus is the identity. -/
def choiceNE {α : Type} (l : List α) (h : l ≠ []) (u : ℚ) : α :=
  l.get ⟨(⌊u * (l.length : ℚ)⌋).toNat % l.length,
    Nat.mod_lt _ (List.length_pos.mpr h)⟩

/-! ## Python numeric primitives on exact rationals -/

/-- `int(x)`: truncation toward zero. -/
def pyInt (x : ℚ) : ℤ := if 0 ≤ x then ⌊x⌋ else -⌊-x⌋

/-- Round-half-to-even to an integer, the rounding used by Python `round`. -/
def roundEven (x : ℚ) : ℤ :=
  if Int.fract x = 1 / 2 then (if Even ⌊x⌋ then ⌊x⌋ else ⌊x⌋ + 1) else round x

/-- Python `round(x, n)` modelled on exact rationals. -/
def pyRound (n : ℕ) (x : ℚ) : ℚ := (roundEven (x * 10 ^ n) : ℚ) / 10 ^ n

/-! ## Date and time encodings

A `datetime.date(y, m, d)` is encoded as the integer `y*10000 + m*100 + d`;
for valid dates this encoding is strictly monotone in the calendar order,
which is all the source uses (`<=` comparisons).  A `datetime.datetime` is
encoded as `dateEnc * 86400 + second-of-day`, again order-compatible, and a
`datetime.time` as its minute-of-day. -/

def dateEnc (y m d : ℤ) : ℤ := y * 10000 + m * 100 + d

def dtEnc (dateE secs : ℤ) : ℤ := dateE * 86400 + secs

/-- `.date()` of an encoded datetime. -/
def dtDate (t : ℤ) : ℤ := t / 86400

/-! ## Cell values and DataFrames -/

inductive Value : Type
  | vStr (s : String)
  | vInt (n : ℤ)
  | vFloat (q : ℚ)
  | vBool (b : Bool)
  | vDate (d : ℤ)
  | vDatetime (t : ℤ)
  | vTime (t : ℤ)
  | vNull
deriving DecidableEq, Repr, Inhabited

/-- A pandas DataFrame: ordered association list of column name to cells. -/
structure DataFrame : Type where
  cols : List (String × List Value)
deriving DecidableEq, Repr, Inhabited

def getCol (df : DataFrame) (c : String) : Option (List Value) :=
  (df.cols.find? (fun p => p.1 == c)).map (·.2)

def setCol (df : DataFrame) (c : String) (cells : List Value) : DataFrame :=
  ⟨df.cols.map (fun p => if p.1 == c then (p.1, cells) else p)⟩

/-- `len(df)`: the number of rows. -/
def numRows (df : DataFrame) : ℕ :=
  match df.cols with
  | [] => 0
  | c :: _ => c.2.length

/-! ## The schema registry (`SCHEMAS`) -/

inductive SType : Type
  | sstr | sint | sfloat | sbool | sdate | sdatetime | stime
deriving DecidableEq, Repr, Inhabited

open SType in
def SCHEMAS : List (String × List (String × SType)) := [
  ("dim_formulations", [
    ("formulation_id", sstr), ("product_name", sstr), ("product_category", sstr),
    ("version", sstr), ("status", sstr), ("created_date", sdate),
    ("expected_yield_percentage", sfloat), ("production_cost_per_unit", sfloat),
    ("target_cycle_time_hours", sfloat), ("quality_standards", sstr)]),
  ("fact_production_batches", [
    ("batch_id", sstr), ("formulation_id", sstr), ("production_date", sdate),
    ("planned_quantity", sint), ("actual_quantity", sint), ("yield_percentage", sfloat),
    ("status", sstr), ("equipment_id", sstr), ("supervisor_id", sstr),
    ("quality_score", sfloat), ("total_cost", sfloat), ("completion_time_hours", sfloat)]),
  ("dim_raw_materials", [
    ("material_id", sstr), ("material_name", sstr), ("category", sstr),
    ("supplier_id", sstr), ("unit_of_measure", sstr), ("unit_cost", sfloat),
    ("min_stock_level", sint), ("current_stock", sint), ("shelf_life_days", sint),
    ("storage_requirements", sstr)]),
  ("fact_inventory_transactions", [
    ("transaction_id", sstr), ("transaction_date", sdate), ("transaction_type", sstr),
    ("sku", sstr), ("batch_id", sstr), ("quantity", sint), ("unit_cost", sfloat),
    ("total_value", sfloat), ("location_id", sstr), ("reference_document", sstr),
    ("employee_id", sstr)]),
  ("dim_inventory_items", [
    ("sku", sstr), ("item_name", sstr), ("category", sstr), ("unit_of_measure", sstr),
    ("current_stock", sint), ("min_stock_level", sint), ("max_stock_level", sint),
    ("average_unit_cost", sfloat), ("total_value", sfloat), ("last_restock_date", sdate),
    ("expiry_date", sdate), ("storage_location", sstr)]),
  ("fact_sales_transactions", [
    ("transaction_id", sstr), ("transaction_date", sdatetime), ("customer_id", sstr),
    ("sku", sstr), ("quantity", sint), ("unit_price", sfloat), ("total_amount", sfloat),
    ("discount_amount", sfloat), ("tax_amount", sfloat), ("net_amount", sfloat),
    ("payment_method", sstr), ("payment_status", sstr), ("sales_channel", sstr),
    ("employee_id", sstr)]),
  ("dim_customers", [
    ("customer_id", sstr), ("customer_name", sstr), ("customer_type", sstr),
    ("email", sstr), ("phone", sstr), ("address", sstr), ("city", sstr),
    ("country", sstr), ("customer_since", sdate), ("loyalty_points", sint),
    ("total_purchases", sfloat), ("last_purchase_date", sdate)]),
  ("dim_employees", [
    ("employee_id", sstr), ("first_name", sstr), ("last_name", sstr), ("email", sstr),
    ("phone", sstr), ("department", sstr), ("position", sstr), ("hire_date", sdate),
    ("salary", sfloat), ("employment_type", sstr), ("supervisor_id", sstr),
    ("shift_pattern", sstr), ("active", sbool)]),
  ("fact_attendance", [
    ("attendance_id", sstr), ("employee_id", sstr), ("date", sdate),
    ("shift_start", stime), ("shift_end", stime), ("actual_start", stime),
    ("actual_end", stime), ("hours_worked", sfloat), ("overtime_hours", sfloat),
    ("attendance_status", sstr), ("remarks", sstr)]),
  ("fact_financial_transactions", [
    ("transaction_id", sstr), ("transaction_date", sdate), ("transaction_type", sstr),
    ("account_code", sstr), ("description", sstr), ("debit_amount", sfloat),
    ("credit_amount", sfloat), ("balance", sfloat), ("reference_number", sstr),
    ("vendor_customer_id", sstr), ("payment_method", sstr), ("status", sstr)]),
  ("dim_accounts", [
    ("account_code", sstr), ("account_name", sstr), ("account_type", sstr),
    ("category", sstr), ("normal_balance", sstr), ("opening_balance", sfloat),
    ("current_balance", sfloat), ("parent_account", sstr), ("is_active", sbool)]),
  ("fact_ecommerce_orders", [
    ("order_id", sstr), ("order_date", sdatetime), ("customer_id", sstr),
    ("total_amount", sfloat), ("shipping_amount", sfloat), ("tax_amount", sfloat),
    ("discount_amount", sfloat), ("net_amount", sfloat), ("payment_status", sstr),
    ("order_status", sstr), ("shipping_method", sstr), ("tracking_number", sstr),
    ("website_session_id", sstr)]),
  ("fact_website_traffic", [
    ("session_id", sstr), ("timestamp", sdatetime), ("page_url", sstr),
    ("referrer", sstr), ("device_type", sstr), ("location", sstr),
    ("session_duration_seconds", sint), ("page_views", sint), ("converted", sbool),
    ("customer_id", sstr)]),
  ("fact_production_analytics", [
    ("analytics_id", sstr), ("date", sdate), ("batch_id", sstr), ("equipment_id", sstr),
    ("oee_percentage", sfloat), ("yield_rate", sfloat), ("cycle_time_hours", sfloat),
    ("downtime_hours", sfloat), ("quality_score", sfloat), ("cost_variance", sfloat),
    ("energy_consumption", sfloat), ("scrap_percentage", sfloat)]),
  ("fact_inventory_analytics", [
    ("analytics_id", sstr), ("date", sdate), ("sku", sstr), ("category", sstr),
    ("stock_turnover_rate", sfloat), ("days_inventory_outstanding", sfloat),
    ("stockout_frequency", sfloat), ("holding_cost_percentage", sfloat),
    ("abc_classification", sstr), ("excess_stock_value", sfloat),
    ("stockout_value", sfloat), ("forecast_accuracy", sfloat)]),
  ("dim_tenants", [
    ("tenant_id", sstr), ("tenant_name", sstr), ("business_type", sstr),
    ("industry", sstr), ("subscription_plan", sstr), ("subscription_start", sdate),
    ("subscription_end", sdate), ("max_users", sint), ("active_users", sint),
    ("monthly_fee", sfloat), ("status", sstr), ("contact_email", sstr),
    ("contact_phone", sstr)]),
  ("fact_audit_logs", [
    ("log_id", sstr), ("timestamp", sdatetime), ("tenant_id", sstr), ("user_id", sstr),
    ("user_role", sstr), ("module", sstr), ("action", sstr), ("resource", sstr),
    ("resource_id", sstr), ("ip_address", sstr), ("success", sbool), ("details", sstr)])]

/-! ## Type coercion (pandas semantics)

Modelled from the spec: the pandas casts used by `validate_table`
(`pd.to_datetime`, `astype(bool)`, `pd.to_numeric(errors="coerce")
.fillna(0)`, `astype(str)`) are library code, modelled here at the level
of success/failure and of the values the claims depend on.  Numeric
coercion is lenient (unparseable data becomes 0), date/datetime coercion
of a non-date value fails, `astype(bool)`/`astype(str)` are total. -/

def parseDateStr (s : String) : Option ℤ :=
  match s.splitOn "-" with
  | [y, m, d] =>
    match y.toNat?, m.toNat?, d.toNat? with
    | some yn, some mn, some dn =>
      if 1 ≤ mn ∧ mn ≤ 12 ∧ 1 ≤ dn ∧ dn ≤ 31 then some (dateEnc yn mn dn) else none
    | _, _, _ => none
  | _ => none

def parseNum (s : String) : Option ℚ :=
  let core : String → Option ℚ := fun t =>
    match t.splitOn "." with
    | [a] => a.toNat?.map (fun n => (n : ℚ))
    | [a, b] =>
      match a.toNat?, b.toNat? with
      | some n, some f => some ((n : ℚ) + (f : ℚ) / 10 ^ b.length)
      | _, _ => none
    | _ => none
  if s.startsWith "-" then (core (s.drop 1)).map (fun q => -q) else core s

/-- Python truthiness, as used by `astype(bool)` on an object column. -/
def truthy : Value → Bool
  | .vStr s => s ≠ ""
  | .vInt n => n ≠ 0
  | .vFloat q => q ≠ 0
  | .vBool b => b
  | .vDate _ => true
  | .vDatetime _ => true
  | .vTime _ => true
  | .vNull => false

/-- `pd.to_numeric(v, errors="coerce")` followed by `fillna(0)`. -/
def toNum : Value → ℚ
  | .vStr s => (parseNum s).getD 0
  | .vInt n => (n : ℚ)
  | .vFloat q => q
  | .vBool b => if b then 1 else 0
  | .vDate _ => 0
  | .vDatetime _ => 0
  | .vTime _ => 0
  | .vNull => 0

/-- `str(v)` as produced by `astype(str)`. -/
def showValue : Value → String
  | .vStr s => s
  | .vInt n => toString n
  | .vFloat q => toString q
  | .vBool b => if b then "True" else "False"
  | .vDate d => toString d
  | .vDatetime t => toString t
  | .vTime t => toString t
  | .vNull => "None"

/-- One cell under the coercion for one schema type.  The `date`,
`datetime`, `bool`, `int` and `float` branches mirror the `if`/`elif`
chain of `validate_table`; every other schema type (including `time`)
falls through to the `astype(str)` branch. -/
def coerceCell : SType → Value → Option Value
  | .sdate, v =>
    match v with
    | .vDate d => some (.vDate d)
    | .vDatetime t => some (.vDate (dtDate t))
    | .vStr s => (parseDateStr s).map .vDate
    | .vInt n => some (.vDate (n / 86400000000000))
    | .vFloat q => some (.vDate (pyInt q / 86400000000000))
    | .vNull => some .vNull
    | _ => none
  | .sdatetime, v =>
    match v with
    | .vDatetime t => some (.vDatetime t)
    | .vDate d => some (.vDatetime (dtEnc d 0))
    | .vStr s => (parseDateStr s).map (fun de => .vDatetime (dtEnc de 0))
    | .vInt n => some (.vDatetime (n / 1000000000))
    | .vFloat q => some (.vDatetime (pyInt q / 1000000000))
    | .vNull => some .vNull
    | _ => none
  | .sbool, v => some (.vBool (truthy v))
  | .sint, v => some (.vInt (pyInt (toNum v)))
  | .sfloat, v => some (.vFloat (toNum v))
  | _, v => some (.vStr (showValue v))

/-- `Option`-valued map: `mapOpt f l = some l'` iff `f` succeeds on every
element; mirrors a Python loop that may raise. -/
def mapOpt {α β : Type} (f : α → Option β) : List α → Option (List β)
  | [] => some []
  | x :: xs => do
    let y ← f x
    let ys ← mapOpt f xs
    pure (y :: ys)

/-- Coercing a whole column: pandas raises if any cell fails. -/
def coerceColumn (ty : SType) (cells : List Value) : Option (List Value) :=
  mapOpt (coerceCell ty) cells

def isNullV : Value → Bool
  | .vNull => true
  | _ => false

/-! ## The validator (`validate_table`) -/

structure Report : Type where
  rowCount : Option ℕ
  errors : List String
  warnings : List String
  ok : Bool
deriving DecidableEq, Repr, Inhabited

def missingCols (schema : List (String × SType)) (df : DataFrame) : List String :=
  (schema.map (·.1)).filter (fun c => !(df.cols.any (fun p => p.1 == c)))

def extraCols (schema : List (String × SType)) (df : DataFrame) : List String :=
  (df.cols.map (·.1)).filter (fun c => !(schema.any (fun p => p.1 == c)))

/-- The type-coercion loop of `validate_table`: each present required
column is cast in place; a failed cast leaves the column unchanged and
records a fatal error. -/
def applyCoercions : List (String × SType) → DataFrame → DataFrame × List String
  | [], df => (df, [])
  | (col, ty) :: rest, df =>
    match getCol df col with
    | none => applyCoercions rest df
    | some cells =>
      match coerceColumn ty cells with
      | some newCells => applyCoercions rest (setCol df col newCells)
      | none =>
        let r := applyCoercions rest df
        (r.1, ("Type conversion failed for " ++ col) :: r.2)

/-- Null check on required columns, run after coercion; nulls are warnings. -/
def nullWarnings (schema : List (String × SType)) (df : DataFrame) : List String :=
  (schema.map (·.1)).filterMap (fun col =>
    match getCol df col with
    | some cells =>
      if cells.any isNullV then
        some ("Column " ++ col ++ " has " ++ toString (cells.countP isNullV)
          ++ " null values")
      else none
    | none => none)

def validate_table (tableName : String) (df : DataFrame) : DataFrame × Report :=
  match SCHEMAS.lookup tableName with
  | none => (df, { rowCount := none, errors := ["Unknown table"], warnings := [], ok := false })
  | some schema =>
    let missing := missingCols schema df
    let extra := extraCols schema df
    let errs0 := if missing.isEmpty then []
      else ["Missing columns: " ++ String.intercalate ", " missing]
    let warns0 := if extra.isEmpty then []
      else ["Extra columns: " ++ String.intercalate ", " extra]
    let coerced := applyCoercions schema df
    let errors := errs0 ++ coerced.2
    let warnings := warns0 ++ nullWarnings schema coerced.1
    (coerced.1,
      { rowCount := some (numRows coerced.1)
        errors := errors
        warnings := warnings
        ok := errors.isEmpty })

/-! ## String helpers for the f-string formatting in the source -/

/-- `f"{n:0{w}d}"` for the non-negative identifiers used in the source. -/
def pad (w : ℕ) (n : ℤ) : String :=
  let s := toString n.toNat
  if s.length < w then String.mk (List.replicate (w - s.length) '0') ++ s else s

/-- Python's `pat in s` substring test. -/
def containsSub (s pat : String) : Bool := (s.splitOn pat).length != 1

/-! ## Row types, one structure per generated table -/

structure TenantRow : Type where
  tenant_id : String
  tenant_name : String
  business_type : String
  industry : String
  subscription_plan : String
  subscription_start : ℤ
  subscription_end : ℤ
  max_users : ℤ
  active_users : ℤ
  monthly_fee : ℚ
  status : String
  contact_email : String
  contact_phone : String
deriving DecidableEq, Repr, Inhabited

structure FormulationRow : Type where
  formulation_id : String
  product_name : String
  product_category : String
  version : String
  status : String
  created_date : ℤ
  expected_yield_percentage : ℚ
  production_cost_per_unit : ℚ
  target_cycle_time_hours : ℚ
  quality_standards : String
deriving DecidableEq, Repr, Inhabited

structure MaterialRow : Type where
  material_id : String
  material_name : String
  category : String
  supplier_id : String
  unit_of_measure : String
  unit_cost : ℚ
  min_stock_level : ℤ
  current_stock : ℤ
  shelf_life_days : ℤ
  storage_requirements : String
deriving DecidableEq, Repr, Inhabited

structure EmployeeRow : Type where
  employee_id : String
  first_name : String
  last_name : String
  email : String
  phone : String
  department : String
  position : String
  hire_date : ℤ
  salary : ℚ
  employment_type : String
  supervisor_id : String
  shift_pattern : String
  active : Bool
deriving DecidableEq, Repr, Inhabited

structure CustomerRow : Type where
  customer_id : String
  customer_name : String
  customer_type : String
  email : String
  phone : String
  address : String
  city : String
  country : String
  customer_since : ℤ
  loyalty_points : ℤ
  total_purchases : ℚ
  last_purchase_date : ℤ
deriving DecidableEq, Repr, Inhabited

structure BatchRow : Type where
  batch_id : String
  formulation_id : String
  production_date : ℤ
  planned_quantity : ℤ
  actual_quantity : ℤ
  yield_percentage : ℚ
  status : String
  equipment_id : String
  supervisor_id : String
  quality_score : ℚ
  total_cost : ℚ
  completion_time_hours : ℚ
deriving DecidableEq, Repr, Inhabited

structure ItemRow : Type where
  sku : String
  item_name : String
  category : String
  unit_of_measure : String
  current_stock : ℤ
  min_stock_level : ℤ
  max_stock_level : ℤ
  average_unit_cost : ℚ
  total_value : ℚ
  last_restock_date : ℤ
  expiry_date : ℤ
  storage_location : String
deriving DecidableEq, Repr, Inhabited

structure InvTxRow : Type where
  transaction_id : String
  transaction_date : ℤ
  transaction_type : String
  sku : String
  batch_id : String
  quantity : ℤ
  unit_cost : ℚ
  total_value : ℚ
  location_id : String
  reference_document : String
  employee_id : String
deriving DecidableEq, Repr, Inhabited

structure SaleRow : Type where
  transaction_id : String
  transaction_date : ℤ
  customer_id : String
  sku : String
  quantity : ℤ
  unit_price : ℚ
  total_amount : ℚ
  discount_amount : ℚ
  tax_amount : ℚ
  net_amount : ℚ
  payment_method : String
  payment_status : String
  sales_channel : String
  employee_id : String
deriving DecidableEq, Repr, Inhabited

structure OrderRow : Type where
  order_id : String
  order_date : ℤ
  customer_id : String
  total_amount : ℚ
  shipping_amount : ℚ
  tax_amount : ℚ
  discount_amount : ℚ
  net_amount : ℚ
  payment_status : String
  order_status : String
  shipping_method : String
  tracking_number : String
  website_session_id : String
deriving DecidableEq, Repr, Inhabited

structure AttRow : Type where
  attendance_id : String
  employee_id : String
  date : ℤ
  shift_start : ℤ
  shift_end : ℤ
  actual_start : ℤ
  actual_end : ℤ
  hours_worked : ℚ
  overtime_hours : ℚ
  attendance_status : String
  remarks : String
deriving DecidableEq, Repr, Inhabited

structure AccountRow : Type where
  account_code : String
  account_name : String
  account_type : String
  category : String
  normal_balance : String
  opening_balance : ℚ
  current_balance : ℚ
  parent_account : String
  is_active : Bool
deriving DecidableEq, Repr, Inhabited

structure FinTxRow : Type where
  transaction_id : String
  transaction_date : ℤ
  transaction_type : String
  account_code : String
  description : String
  debit_amount : ℚ
  credit_amount : ℚ
  balance : ℚ
  reference_number : String
  vendor_customer_id : String
  payment_method : String
  status : String
deriving DecidableEq, Repr, Inhabited

structure TrafficRow : Type where
  session_id : String
  timestamp : ℤ
  page_url : String
  referrer : String
  device_type : String
  location : String
  session_duration_seconds : ℤ
  page_views : ℤ
  converted : Bool
  customer_id : String
deriving DecidableEq, Repr, Inhabited

structure PAnalyticsRow : Type where
  analytics_id : String
  date : ℤ
  batch_id : String
  equipment_id : String
  oee_percentage : ℚ
  yield_rate : ℚ
  cycle_time_hours : ℚ
  downtime_hours : ℚ
  quality_score : ℚ
  cost_variance : ℚ
  energy_consumption : ℚ
  scrap_percentage : ℚ
deriving DecidableEq, Repr, Inhabited

structure IAnalyticsRow : Type where
  analytics_id : String
  date : ℤ
  sku : String
  category : String
  stock_turnover_rate : ℚ
  days_inventory_outstanding : ℚ
  stockout_frequency : ℚ
  holding_cost_percentage : ℚ
  abc_classification : String
  excess_stock_value : ℚ
  stockout_value : ℚ
  forecast_accuracy : ℚ
deriving DecidableEq, Repr, Inhabited

structure AuditRow : Type where
  log_id : String
  timestamp : ℤ
  tenant_id : String
  user_id : String
  user_role : String
  module : String
  action : String
  resource : String
  resource_id : String
  ip_address : String
  success : Bool
  details : String
deriving DecidableEq, Repr, Inhabited

/-! ## Generators -/

/-- `generate_tenants_data`: three fixed tenants, no randomness. -/
def generate_tenants_data : List TenantRow := [
  { tenant_id := "cinta_beauty", tenant_name := "Cinta Beauty Ltd",
    business_type := "Manufacturing", industry := "Cosmetics & Beauty Products",
    subscription_plan := "Enterprise", subscription_start := dateEnc 2023 1 1,
    subscription_end := dateEnc 2025 12 31, max_users := 50, active_users := 35,
    monthly_fee := 250000, status := "Active",
    contact_email := "admin@cintabeauty.co.ke", contact_phone := "+254 700 123 456" },
  { tenant_id := "virtual_analytics", tenant_name := "Virtual Analytics Demo",
    business_type := "Consulting", industry := "Technology Services",
    subscription_plan := "Growth", subscription_start := dateEnc 2024 6 1,
    subscription_end := dateEnc 2024 12 31, max_users := 20, active_users := 15,
    monthly_fee := 150000, status := "Active",
    contact_email := "demo@virtualanalytics.com", contact_phone := "+254 711 987 654" },
  { tenant_id := "sme_demo_01", tenant_name := "SME Manufacturing Demo",
    business_type := "Manufacturing", industry := "FMCG",
    subscription_plan := "Starter", subscription_start := dateEnc 2024 3 15,
    subscription_end := dateEnc 2024 9 14, max_users := 10, active_users := 8,
    monthly_fee := 75000, status := "Active",
    contact_email := "info@smedemo.co.ke", contact_phone := "+254 722 456 789" }]

def product_categories : List (String × List String) := [
  ("Skincare", ["Vitamin C Serum", "Hyaluronic Acid Serum", "Retinol Night Cream",
    "SPF 50 Sunscreen", "Tea Tree Face Wash", "Niacinamide Toner",
    "Ceramide Moisturizer", "AHA/BHA Exfoliant"]),
  ("Haircare", ["Argan Oil Shampoo", "Biotin Conditioner", "Hair Growth Serum",
    "Scalp Treatment", "Leave-in Conditioner", "Hair Mask", "Heat Protectant",
    "Color Protection Serum"]),
  ("Bodycare", ["Body Lotion", "Body Butter", "Body Scrub", "Body Oil", "Hand Cream",
    "Foot Cream", "Deodorant", "Body Mist"]),
  ("Makeup", ["Foundation", "Concealer", "Lipstick", "Mascara", "Blush", "Highlighter",
    "Eyeshadow", "Setting Spray"])]

/-- `generate_formulations_data`: one row per (category, product) pair, ids
`FMT-0001`, `FMT-0002`, … in iteration order. -/
def generate_formulations_data (o : ℕ → ℕ → ℚ) : List FormulationRow :=
  let pairs := product_categories.flatMap (fun cp => cp.2.map (fun p => (cp.1, p)))
  pairs.enum.map (fun ip =>
    let i : ℕ := ip.1
    let category := ip.2.1
    let product := ip.2.2
    { formulation_id := "FMT-" ++ pad 4 (i + 1)
      product_name := product
      product_category := category
      version := "v" ++ toString (randint 1 3 (o 0 i)) ++ "." ++ toString (randint 0 9 (o 1 i))
      status := choiceNE ["Active", "Active", "Active", "Archived"] (List.cons_ne_nil _ _) (o 2 i)
      created_date := dateEnc 2023 (randint 1 12 (o 3 i)) (randint 1 28 (o 4 i))
      expected_yield_percentage := pyRound 2 (uniform 85 98 (o 5 i))
      production_cost_per_unit := pyRound 2 (uniform 150 5000 (o 6 i))
      target_cycle_time_hours := pyRound 1 (uniform 2 48 (o 7 i))
      quality_standards := choiceNE ["KEBS", "FDA", "ISO 22716", "EU Regulations"]
        (List.cons_ne_nil _ _) (o 8 i) })

def material_categories : List (String × List String) := [
  ("Active Ingredients", ["Vitamin C (Ascorbic Acid)", "Hyaluronic Acid", "Retinol",
    "Niacinamide", "Salicylic Acid", "Glycolic Acid", "Ceramides", "Peptides",
    "Coenzyme Q10"]),
  ("Base Oils", ["Jojoba Oil", "Argan Oil", "Rosehip Oil", "Coconut Oil", "Almond Oil",
    "Olive Oil", "Grapeseed Oil", "Sunflower Oil", "Shea Butter"]),
  ("Emulsifiers", ["Cetearyl Alcohol", "Glyceryl Stearate", "Polysorbate 80", "Lecithin",
    "Cetyl Alcohol", "Stearic Acid"]),
  ("Preservatives", ["Phenoxyethanol", "Potassium Sorbate", "Sodium Benzoate",
    "Benzyl Alcohol"]),
  ("Fragrances", ["Rose Essential Oil", "Lavender Oil", "Tea Tree Oil", "Peppermint Oil",
    "Citrus Blend", "Unscented"]),
  ("Packaging", ["Glass Bottle 30ml", "Plastic Tube 50ml", "Airless Pump", "Dropper",
    "Jar 60ml", "Spray Bottle", "Box Packaging", "Labels"])]

/-- The `suppliers` list of `generate_raw_materials_data`: `SUP-001` … `SUP-020`. -/
def material_suppliers : List String :=
  (List.range 20).map (fun i => "SUP-" ++ pad 3 ((i : ℤ) + 1))

/-- `generate_raw_materials_data`. -/
def generate_raw_materials_data (o : ℕ → ℕ → ℚ) : List MaterialRow :=
  let pairs := material_categories.flatMap (fun cp => cp.2.map (fun it => (cp.1, it)))
  pairs.enum.map (fun ip =>
    let i : ℕ := ip.1
    let category := ip.2.1
    let item := ip.2.2
    let unit_cost := uniform 50 5000 (o 0 i)
    { material_id := "MAT-" ++ pad 4 (i + 1)
      material_name := item
      category := category
      supplier_id := choiceNE material_suppliers (by decide) (o 1 i)
      unit_of_measure := choiceNE ["kg", "liters", "pieces", "grams"]
        (List.cons_ne_nil _ _) (o 2 i)
      unit_cost := pyRound 2 unit_cost
      min_stock_level := randint 10 100 (o 3 i)
      current_stock := randint 50 500 (o 4 i)
      shelf_life_days := choiceNE [180, 365, 730, 1095] (List.cons_ne_nil _ _) (o 5 i)
      storage_requirements := choiceNE ["Room Temp", "Cool Dry Place", "Refrigerated",
        "Air Tight"] (List.cons_ne_nil _ _) (o 6 i) })

def employee_departments : List (String × List String) := [
  ("Production", ["Production Manager", "Line Supervisor", "Machine Operator",
    "Quality Technician", "Production Worker", "Maintenance Technician"]),
  ("Quality Control", ["QC Manager", "Lab Technician", "Quality Inspector",
    "Compliance Officer"]),
  ("Research & Development", ["R&D Manager", "Formulation Scientist", "Product Developer",
    "Lab Assistant"]),
  ("Sales & Marketing", ["Sales Manager", "Marketing Executive", "Account Manager",
    "Customer Service"]),
  ("Finance & Admin", ["Finance Manager", "Accountant", "HR Manager", "Admin Assistant"]),
  ("Supply Chain", ["Procurement Manager", "Inventory Controller", "Logistics Coordinator",
    "Warehouse Supervisor"])]

def employee_first_names : List String :=
  ["John", "Mary", "James", "Elizabeth", "Robert", "Sarah", "Michael", "Susan",
   "David", "Margaret", "William", "Dorothy", "Richard", "Lisa", "Charles", "Nancy",
   "Joseph", "Karen", "Thomas", "Betty", "Daniel", "Helen", "Paul", "Sandra",
   "Mark", "Ashley", "Donald", "Kimberly", "George", "Emily", "Kenneth", "Donna"]

def employee_last_names : List String :=
  ["Smith", "Johnson", "Williams", "Jones", "Brown", "Davis", "Miller", "Wilson",
   "Moore", "Taylor", "Anderson", "Thomas", "Jackson", "White", "Harris", "Martin",
   "Thompson", "Garcia", "Martinez", "Robinson", "Clark", "Rodriguez", "Lewis", "Lee"]

/-- `generate_employees_data`: one row per (department, position) pair. -/
def generate_employees_data (o : ℕ → ℕ → ℚ) : List EmployeeRow :=
  let pairs := employee_departments.flatMap (fun dp => dp.2.map (fun pos => (dp.1, pos)))
  pairs.enum.map (fun ip =>
    let i : ℕ := ip.1
    let dept := ip.2.1
    let position := ip.2.2
    let employee_id := (i : ℤ) + 1
    let first_name := choiceNE employee_first_names (by simp [employee_first_names]) (o 0 i)
    let last_name := choiceNE employee_last_names (by simp [employee_last_names]) (o 1 i)
    let salary : ℚ :=
      if containsSub position "Manager" then uniform 150000 300000 (o 2 i)
      else if containsSub position "Senior" || containsSub position "Lead" then
        uniform 80000 150000 (o 2 i)
      else uniform 30000 80000 (o 2 i)
    { employee_id := "EMP-" ++ pad 4 employee_id
      first_name := first_name
      last_name := last_name
      email := first_name.toLower ++ "." ++ last_name.toLower ++ "@cintabeauty.co.ke"
      phone := "+254 7" ++ toString (randint 10 99 (o 3 i)) ++ " "
        ++ toString (randint 100000 999999 (o 4 i))
      department := dept
      position := position
      hire_date := dateEnc (2020 + randint 0 4 (o 5 i)) (randint 1 12 (o 6 i))
        (randint 1 28 (o 7 i))
      salary := pyRound 2 salary
      employment_type := choiceNE ["Permanent", "Contract", "Temporary"]
        (List.cons_ne_nil _ _) (o 8 i)
      supervisor_id := if 5 < employee_id then "EMP-" ++ pad 4 (randint 1 5 (o 9 i)) else ""
      shift_pattern := choiceNE ["Morning", "Evening", "Night", "Flexible"]
        (List.cons_ne_nil _ _) (o 10 i)
      active := choiceNE [true, true, true, false] (List.cons_ne_nil _ _) (o 11 i) })

def customer_cities : List String :=
  ["Nairobi", "Mombasa", "Kisumu", "Nakuru", "Eldoret", "Thika", "Malindi", "Kitale"]

def b2b_names : List String :=
  ["Nairobi Beauty Mart", "Coast Cosmetics Distributors", "Lake Region Retail",
   "Rift Valley Supplies", "Mombasa Mall Stores", "Kisumu City Suppliers",
   "Nakuru Wholesalers", "Eldoret Trading Co", "Thika Retail Hub", "Malindi Beach Stores",
   "Kitale Northern Distributors", "Central Kenya Suppliers"]

def customer_first_names : List String :=
  ["Grace", "Faith", "Joy", "Hope", "Mercy", "Blessing", "Victor", "Samuel", "Peter",
   "Joseph", "Ruth", "Esther", "Naomi", "Hannah", "David", "Isaac", "Jacob", "Daniel",
   "Stephen", "Andrew"]

def customer_last_names : List String :=
  ["Mwangi", "Kariuki", "Ochieng", "Odhiambo", "Kamau", "Wanjiru", "Akinyi", "Achieng",
   "Otieno", "Omondi"]

/-- `generate_customers_data`: 12 B2B customers (`B2B-0001` … `B2B-0012`)
followed by 50 B2C customers; the id counter keeps incrementing, so the
B2C ids are `B2C-0013` … `B2C-0062`. -/
def generate_customers_data (o : ℕ → ℕ → ℚ) : List CustomerRow :=
  let b2b : List CustomerRow := b2b_names.enum.map (fun ip =>
    let i : ℕ := ip.1
    let name := ip.2
    let customer_id := (i : ℤ) + 1
    let city := choiceNE customer_cities (by simp [customer_cities]) (o 0 i)
    { customer_id := "B2B-" ++ pad 4 customer_id
      customer_name := name
      customer_type := "Business"
      email := "orders@" ++ (name.toLower.replace " " "") ++ ".co.ke"
      phone := "+254 7" ++ toString (randint 10 99 (o 1 i)) ++ " "
        ++ toString (randint 100000 999999 (o 2 i))
      address := toString (randint 1 999 (o 3 i)) ++ " "
        ++ choiceNE ["Moi", "Kenyatta", "Uhuru", "Koinange"] (List.cons_ne_nil _ _) (o 4 i)
        ++ " Avenue"
      city := city
      country := "Kenya"
      customer_since := dateEnc (2020 + randint 0 4 (o 5 i)) (randint 1 12 (o 6 i))
        (randint 1 28 (o 7 i))
      loyalty_points := randint 1000 10000 (o 8 i)
      total_purchases := pyRound 2 (uniform 50000 500000 (o 9 i))
      last_purchase_date := dateEnc 2024 (randint 1 12 (o 10 i)) (randint 1 28 (o 11 i)) })
  let b2c : List CustomerRow := (List.range 50).map (fun (i : ℕ) =>
    let customer_id : ℤ := (i : ℤ) + 13
    let first := choiceNE customer_first_names (by simp [customer_first_names]) (o 12 i)
    let last := choiceNE customer_last_names (by simp [customer_last_names]) (o 13 i)
    let city := choiceNE customer_cities (by simp [customer_cities]) (o 14 i)
    { customer_id := "B2C-" ++ pad 4 customer_id
      customer_name := first ++ " " ++ last
      customer_type := "Individual"
      email := first.toLower ++ "." ++ last.toLower ++ "@gmail.com"
      phone := "+254 7" ++ toString (randint 10 99 (o 15 i)) ++ " "
        ++ toString (randint 100000 999999 (o 16 i))
      address := toString (randint 1 999 (o 17 i)) ++ " "
        ++ choiceNE ["Street", "Road", "Avenue", "Drive"] (List.cons_ne_nil _ _) (o 18 i)
      city := city
      country := "Kenya"
      customer_since := dateEnc (2022 + randint 0 2 (o 19 i)) (randint 1 12 (o 20 i))
        (randint 1 28 (o 21 i))
      loyalty_points := randint 0 500 (o 22 i)
      total_purchases := pyRound 2 (uniform 1000 50000 (o 23 i))
      last_purchase_date := dateEnc 2024 (randint 1 12 (o 24 i)) (randint 1 28 (o 25 i)) })
  b2b ++ b2c

/-- `generate_production_batches`: 100 batches, each from a random *Active*
formulation; `actual_quantity` is planned × expected yield × noise and
`yield_percentage` is recomputed from the realized quantities. -/
def generate_production_batches (formulations : List FormulationRow)
    (employees : List EmployeeRow) (o : ℕ → ℕ → ℚ) : Option (List BatchRow) :=
  let active := formulations.filter (fun f => f.status == "Active")
  let production_staff :=
    (employees.filter (fun e => e.department == "Production")).map (·.employee_id)
  mapOpt (fun i => do
    let formulation ← choice active (o 0 i)
    let production_date := dateEnc 2024 (randint 1 12 (o 1 i)) (randint 1 28 (o 2 i))
    let planned_qty := randint 100 1000 (o 3 i)
    let actual_qty := pyInt ((planned_qty : ℚ)
      * (formulation.expected_yield_percentage / 100) * uniform 0.9 1.1 (o 4 i))
    let yield_pct := ((actual_qty : ℚ) / (planned_qty : ℚ)) * 100
    let status := choiceNE ["Completed", "Completed", "Completed", "In Progress",
      "Quality Hold"] (List.cons_ne_nil _ _) (o 5 i)
    let unit_cost := formulation.production_cost_per_unit
    let total_cost := (actual_qty : ℚ) * unit_cost * uniform 0.95 1.05 (o 6 i)
    let quality_score := min 100 (yield_pct * uniform 0.8 1.2 (o 7 i))
    let supervisor ← choice production_staff (o 8 i)
    pure ({ batch_id := "BATCH-" ++ pad 4 ((i : ℤ) + 1)
            formulation_id := formulation.formulation_id
            production_date := production_date
            planned_quantity := planned_qty
            actual_quantity := actual_qty
            yield_percentage := pyRound 2 yield_pct
            status := status
            equipment_id := "EQP-" ++ pad 3 (randint 1 10 (o 9 i))
            supervisor_id := supervisor
            quality_score := pyRound 1 quality_score
            total_cost := pyRound 2 total_cost
            completion_time_hours := pyRound 1 (formulation.target_cycle_time_hours
              * uniform 0.8 1.3 (o 10 i)) } : BatchRow)) (List.range 100)

/-- `''.join([word[:3].upper() for word in product_name.split()])`. -/
def skuBase (productName : String) : String :=
  String.join ((productName.splitOn " ").map (fun w => (w.take 3).toUpper))

/-- `generate_inventory_items`: one item per formulation; current stock is a
uniform 10–70% fraction of that formulation's cumulative actual production. -/
def generate_inventory_items (batches : List BatchRow)
    (formulations : List FormulationRow) (o : ℕ → ℕ → ℚ) : List ItemRow :=
  formulations.enum.map (fun p =>
    let i : ℕ := p.1
    let f := p.2
    let sku := skuBase f.product_name ++ "-" ++ (f.product_category.take 3).toUpper
      ++ "-" ++ toString (randint 100 999 (o 0 i))
    let formulation_batches := batches.filter (fun b => b.formulation_id == f.formulation_id)
    let total_produced : ℤ := (formulation_batches.map (·.actual_quantity)).sum
    let unit_cost := f.production_cost_per_unit
    let current_stock := pyInt ((total_produced : ℚ) * uniform 0.1 0.7 (o 1 i))
    { sku := sku
      item_name := f.product_name
      category := f.product_category
      unit_of_measure := choiceNE ["pcs", "ml", "g", "jar"] (List.cons_ne_nil _ _) (o 2 i)
      current_stock := current_stock
      min_stock_level := randint 10 100 (o 3 i)
      max_stock_level := randint 500 5000 (o 4 i)
      average_unit_cost := unit_cost
      total_value := pyRound 2 ((current_stock : ℚ) * unit_cost)
      last_restock_date := dateEnc 2024 (randint 1 12 (o 5 i)) (randint 1 28 (o 6 i))
      expiry_date := dateEnc (2025 + randint 0 2 (o 7 i)) (randint 1 12 (o 8 i))
        (randint 1 28 (o 9 i))
      storage_location := choiceNE ["Warehouse A", "Warehouse B", "Cold Room",
        "Shelf Storage"] (List.cons_ne_nil _ _) (o 10 i) })

/-- `generate_inventory_transactions`: three passes — one "Production
Receipt" per completed batch matched to its item by product name, 1–5
"Sales Issue" rows per item with positive stock (all sharing one drawn
quantity, negated), and 20 "Stock Transfer" rows; transaction ids number
the appended rows consecutively across the passes. -/
def generate_inventory_transactions (items : List ItemRow) (batches : List BatchRow)
    (employees : List EmployeeRow) (formulations : List FormulationRow)
    (o : ℕ → ℕ → ℚ) : Option (List InvTxRow) :=
  let inventory_staff := (employees.filter (fun e =>
    e.department == "Supply Chain" || e.department == "Production")).map (·.employee_id)
  let receiptSources := (batches.filter (fun b => b.status == "Completed")).filterMap
    (fun b =>
      let product_name := ((formulations.find? (fun f =>
        f.formulation_id == b.formulation_id)).map (·.product_name)).getD ""
      if product_name == "" then none
      else (items.find? (fun it => it.item_name == product_name)).map (fun it => (b, it)))
  do
  let receipts ← mapOpt (fun p => do
    let j : ℕ := p.1
    let b := p.2.1
    let it := p.2.2
    let employee ← choice inventory_staff (o 0 j)
    pure ({ transaction_id := "INV-" ++ pad 6 ((j : ℤ) + 1)
            transaction_date := b.production_date
            transaction_type := "Production Receipt"
            sku := it.sku
            batch_id := b.batch_id
            quantity := b.actual_quantity
            unit_cost := it.average_unit_cost
            total_value := pyRound 2 ((b.actual_quantity : ℚ) * it.average_unit_cost)
            location_id := "WH01"
            reference_document := "PROD-" ++ b.batch_id
            employee_id := employee } : InvTxRow)) receiptSources.enum
  let issueSources := items.enum.flatMap (fun p =>
    let ii : ℕ := p.1
    let item := p.2
    if 0 < item.current_stock then
      let sales_qty := randint 1 (min 100 item.current_stock) (o 1 ii)
      (List.range (randint 1 5 (o 2 ii)).toNat).map (fun k => (item, sales_qty, Nat.pair ii k))
    else [])
  let nr := receiptSources.length
  let issues ← mapOpt (fun p => do
    let j : ℕ := p.1
    let item := p.2.1
    let sales_qty := p.2.2.1
    let jk := p.2.2.2
    let employee ← choice inventory_staff (o 3 jk)
    pure ({ transaction_id := "INV-" ++ pad 6 ((nr : ℤ) + (j : ℤ) + 1)
            transaction_date := dateEnc 2024 (randint 1 12 (o 4 jk)) (randint 1 28 (o 5 jk))
            transaction_type := "Sales Issue"
            sku := item.sku
            batch_id := "BATCH-" ++ pad 4 (randint 1 100 (o 6 jk))
            quantity := -sales_qty
            unit_cost := item.average_unit_cost
            total_value := pyRound 2 ((-sales_qty : ℚ) * item.average_unit_cost)
            location_id := "WH01"
            reference_document := "SALE-" ++ toString (randint 1000 9999 (o 7 jk))
            employee_id := employee } : InvTxRow)) issueSources.enum
  let nri := nr + issueSources.length
  let transfers ← mapOpt (fun i => do
    let item ← choice items (o 8 i)
    let employee ← choice inventory_staff (o 9 i)
    pure ({ transaction_id := "INV-" ++ pad 6 ((nri : ℤ) + (i : ℤ) + 1)
            transaction_date := dateEnc 2024 (randint 1 12 (o 10 i)) (randint 1 28 (o 11 i))
            transaction_type := "Stock Transfer"
            sku := item.sku
            batch_id := "BATCH-" ++ pad 4 (randint 1 100 (o 12 i))
            quantity := randint 10 100 (o 13 i)
            unit_cost := item.average_unit_cost
            total_value := pyRound 2 ((randint 10 100 (o 14 i) : ℚ) * item.average_unit_cost)
            location_id := choiceNE ["WH01", "WH02", "STORE01"] (List.cons_ne_nil _ _) (o 15 i)
            reference_document := "TRF-" ++ toString (randint 1000 9999 (o 16 i))
            employee_id := employee } : InvTxRow)) (List.range 20)
  pure (receipts ++ issues ++ transfers)

/-- `generate_sales_transactions`: 500 rows; `net_amount` is reconstructed
from `total_amount`, `discount_amount` and `tax_amount`. -/
def generate_sales_transactions (items : List ItemRow) (customers : List CustomerRow)
    (employees : List EmployeeRow) (o : ℕ → ℕ → ℚ) : Option (List SaleRow) :=
  let sales_staff :=
    (employees.filter (fun e => e.department == "Sales & Marketing")).map (·.employee_id)
  mapOpt (fun i => do
    let customer ← choice customers (o 0 i)
    let item ← choice items (o 1 i)
    let markup := uniform 1.5 3.0 (o 2 i)
    let unit_price := pyRound 2 (item.average_unit_cost * markup)
    let quantity := randint 1 20 (o 3 i)
    let total_amount := pyRound 2 (unit_price * (quantity : ℚ))
    let discount_pct := if customer.customer_type == "Business"
      then uniform 0.05 0.20 (o 4 i) else uniform 0 0.10 (o 5 i)
    let discount_amount := pyRound 2 (total_amount * discount_pct)
    let tax_amount := pyRound 2 ((total_amount - discount_amount) * 0.16)
    let net_amount := pyRound 2 (total_amount - discount_amount + tax_amount)
    let sales_date := dtEnc (dateEnc 2024 (randint 1 12 (o 6 i)) (randint 1 28 (o 7 i)))
      ((randint 8 20 (o 8 i)) * 3600 + (randint 0 59 (o 9 i)) * 60)
    let employee ← choice sales_staff (o 10 i)
    pure ({ transaction_id := "SALE-" ++ pad 6 ((i : ℤ) + 1)
            transaction_date := sales_date
            customer_id := customer.customer_id
            sku := item.sku
            quantity := quantity
            unit_price := unit_price
            total_amount := total_amount
            discount_amount := discount_amount
            tax_amount := tax_amount
            net_amount := net_amount
            payment_method := choiceNE ["M-Pesa", "Cash", "Bank Transfer", "Credit Card"]
              (List.cons_ne_nil _ _) (o 11 i)
            payment_status := choiceNE ["Paid", "Paid", "Paid", "Pending", "Partial"]
              (List.cons_ne_nil _ _) (o 12 i)
            sales_channel := choiceNE ["Retail Store", "Online", "Wholesale", "Distributor"]
              (List.cons_ne_nil _ _) (o 13 i)
            employee_id := employee } : SaleRow)) (List.range 500)

/-- `generate_ecommerce_orders`: 200 online orders from individual customers.
The `sales_df` argument of the source is unused there too. -/
def generate_ecommerce_orders (customers : List CustomerRow) (salesArg : List SaleRow)
    (o : ℕ → ℕ → ℚ) : Option (List OrderRow) :=
  let _ := salesArg
  let b2c_customers := customers.filter (fun c => c.customer_type == "Individual")
  mapOpt (fun i => do
    let customer ← choice b2c_customers (o 0 i)
    let order_date := dtEnc (dateEnc 2024 (randint 1 12 (o 1 i)) (randint 1 28 (o 2 i)))
      ((randint 0 23 (o 3 i)) * 3600 + (randint 0 59 (o 4 i)) * 60)
    let subtotal := pyRound 2 (uniform 1000 50000 (o 5 i))
    let shipping := pyRound 2 (uniform 200 2000 (o 6 i))
    let tax := pyRound 2 (subtotal * 0.16)
    let discount := pyRound 2 (subtotal * uniform 0 0.15 (o 7 i))
    let net_amount := pyRound 2 (subtotal + shipping + tax - discount)
    pure ({ order_id := "ECOMM-" ++ pad 6 ((i : ℤ) + 1)
            order_date := order_date
            customer_id := customer.customer_id
            total_amount := subtotal
            shipping_amount := shipping
            tax_amount := tax
            discount_amount := discount
            net_amount := net_amount
            payment_status := choiceNE ["Paid", "Paid", "Paid", "Pending", "Failed"]
              (List.cons_ne_nil _ _) (o 8 i)
            order_status := choiceNE ["Delivered", "Shipped", "Processing", "Cancelled"]
              (List.cons_ne_nil _ _) (o 9 i)
            shipping_method := choiceNE ["Standard", "Express", "Pickup", "Courier"]
              (List.cons_ne_nil _ _) (o 10 i)
            tracking_number := "TRACK-" ++ toString (randint 1000000000 9999999999 (o 11 i))
            website_session_id := "SESS-" ++ toString (randint 100000 999999 (o 12 i)) }
      : OrderRow)) (List.range 200)

/-- `generate_attendance_data`: 30 consecutive days from 2024-06-01 (a
Saturday, so the weekday of offset `d` is `(5 + d) % 7`); weekend rows are
skipped with 90% probability; hours worked are derived from the perturbed
actual times and overtime is the excess over 9 hours. -/
def generate_attendance_data (employees : List EmployeeRow) (o : ℕ → ℕ → ℚ) :
    List AttRow :=
  let active_employees := employees.filter (fun e => e.active == true)
  let kept := (List.range 30).flatMap (fun day_offset =>
    active_employees.enum.filterMap (fun p =>
      let e : ℕ := p.1
      let j := Nat.pair day_offset e
      let wd := (5 + day_offset) % 7
      if 5 ≤ wd ∧ (1 / 10 : ℚ) < rand (o 0 j) then none
      else some (day_offset, p.2, j)))
  kept.enum.map (fun q =>
    let idx : ℕ := q.1
    let day_offset := q.2.1
    let employee := q.2.2.1
    let j := q.2.2.2
    let st : ℤ × ℤ :=
      if employee.shift_pattern == "Morning" then (480, 1020)
      else if employee.shift_pattern == "Evening" then (840, 1380)
      else (480, 1020)
    let late_minutes := if (4 / 5 : ℚ) < rand (o 1 j) then randint 0 30 (o 2 j) else 0
    let early_leave := if (9 / 10 : ℚ) < rand (o 3 j) then randint 0 60 (o 4 j) else 0
    let actual_start := st.1 + late_minutes
    let actual_end := st.2 - early_leave
    let hours_worked : ℚ := ((actual_end - actual_start : ℤ) : ℚ) * 60 / 3600
    let overtime := max 0 (hours_worked - 9)
    { attendance_id := "ATT-" ++ pad 6 ((idx : ℤ) + 1)
      employee_id := employee.employee_id
      date := dateEnc 2024 6 (1 + (day_offset : ℤ))
      shift_start := st.1
      shift_end := st.2
      actual_start := actual_start
      actual_end := actual_end
      hours_worked := pyRound 2 hours_worked
      overtime_hours := pyRound 2 overtime
      attendance_status := choiceNE ["Present", "Present", "Present", "Late", "Half Day"]
        (List.cons_ne_nil _ _) (o 5 j)
      remarks := choiceNE ["", "", "Traffic", "Family Emergency", "Medical Appointment"]
        (List.cons_ne_nil _ _) (o 6 j) })

def account_structure : List (String × String × List String) := [
  ("Assets", "Current Assets", ["Cash", "Accounts Receivable", "Inventory",
    "Prepaid Expenses"]),
  ("Assets", "Fixed Assets", ["Equipment", "Vehicles", "Buildings",
    "Furniture & Fixtures"]),
  ("Liabilities", "Current Liabilities", ["Accounts Payable", "Accrued Expenses",
    "Short-term Loans"]),
  ("Liabilities", "Long-term Liabilities", ["Long-term Loans", "Mortgage Payable"]),
  ("Equity", "Owner\x27s Equity", ["Capital", "Retained Earnings", "Drawings"]),
  ("Revenue", "Sales Revenue", ["Product Sales", "Service Revenue", "Online Sales"]),
  ("Revenue", "Other Revenue", ["Interest Income", "Discounts Received"]),
  ("Expenses", "Cost of Goods Sold", ["Raw Materials", "Direct Labor",
    "Manufacturing Overhead"]),
  ("Expenses", "Operating Expenses", ["Salaries", "Rent", "Utilities", "Marketing",
    "Office Supplies"]),
  ("Expenses", "Financial Expenses", ["Bank Charges", "Interest Expense"])]

/-- `generate_financial_accounts`: chart of accounts with codes 1000, 1001, …
in iteration order. -/
def generate_financial_accounts (o : ℕ → ℕ → ℚ) : List AccountRow :=
  let triples := account_structure.flatMap (fun t => t.2.2.map (fun n => (t.1, t.2.1, n)))
  triples.enum.map (fun p =>
    let i : ℕ := p.1
    let main_category := p.2.1
    let subcategory := p.2.2.1
    let account_name := p.2.2.2
    let normal_balance :=
      if main_category == "Assets" || main_category == "Expenses" then "Debit" else "Credit"
    let opening_balance : ℚ :=
      if main_category == "Assets" then uniform 100000 1000000 (o 0 i)
      else if main_category == "Liabilities" then uniform 50000 500000 (o 0 i)
      else if main_category == "Equity" then uniform 500000 2000000 (o 0 i)
      else if main_category == "Revenue" then uniform 0 100000 (o 0 i)
      else uniform 0 500000 (o 0 i)
    { account_code := toString (1000 + (i : ℤ))
      account_name := account_name
      account_type := main_category
      category := subcategory
      normal_balance := normal_balance
      opening_balance := pyRound 2 opening_balance
      current_balance := pyRound 2 (opening_balance * uniform 0.8 1.2 (o 1 i))
      parent_account := ""
      is_active := true })

/-- `generate_financial_transactions`: a debit (cash) and a credit (sales
revenue net of tax) row per paid sale, sharing the sale's reference, then
100 random expense postings.  `next(...)` on the account generators is
`none` when no matching account exists. -/
def generate_financial_transactions (accounts : List AccountRow) (sales : List SaleRow)
    (o : ℕ → ℕ → ℚ) : Option (List FinTxRow) := do
  let cash_account ← accounts.find? (fun a =>
    containsSub a.account_name "Cash" || containsSub a.account_name "Bank")
  let sales_account ← accounts.find? (fun a => containsSub a.account_name "Sales")
  let paid := sales.filter (fun s => s.payment_status == "Paid")
  let salesRows : List FinTxRow := paid.enum.flatMap (fun p =>
    let k : ℕ := p.1
    let sale := p.2
    [{ transaction_id := "FIN-" ++ pad 6 (2 * (k : ℤ) + 1)
       transaction_date := dtDate sale.transaction_date
       transaction_type := "Sales Receipt"
       account_code := cash_account.account_code
       description := "Sale to " ++ sale.customer_id
       debit_amount := sale.net_amount
       credit_amount := 0
       balance := cash_account.current_balance + sale.net_amount
       reference_number := sale.transaction_id
       vendor_customer_id := sale.customer_id
       payment_method := sale.payment_method
       status := "Posted" },
     { transaction_id := "FIN-" ++ pad 6 (2 * (k : ℤ) + 2)
       transaction_date := dtDate sale.transaction_date
       transaction_type := "Sales Revenue"
       account_code := sales_account.account_code
       description := "Sale to " ++ sale.customer_id
       debit_amount := 0
       credit_amount := sale.net_amount - sale.tax_amount
       balance := sales_account.current_balance + (sale.net_amount - sale.tax_amount)
       reference_number := sale.transaction_id
       vendor_customer_id := sale.customer_id
       payment_method := ""
       status := "Posted" }])
  let nOff := 2 * paid.length
  let expenses ← mapOpt (fun i => do
    let expense_account ← choice (accounts.filter (fun a => a.account_type == "Expenses"))
      (o 0 i)
    let amount := pyRound 2 (uniform 1000 50000 (o 1 i))
    pure ({ transaction_id := "FIN-" ++ pad 6 ((nOff : ℤ) + (i : ℤ) + 1)
            transaction_date := dateEnc 2024 (randint 1 12 (o 2 i)) (randint 1 28 (o 3 i))
            transaction_type := "Expense Payment"
            account_code := expense_account.account_code
            description := choiceNE ["Office Supplies", "Utility Bill", "Marketing Campaign",
              "Equipment Maintenance"] (List.cons_ne_nil _ _) (o 4 i)
            debit_amount := amount
            credit_amount := 0
            balance := expense_account.current_balance + amount
            reference_number := "EXP-" ++ toString (randint 1000 9999 (o 5 i))
            vendor_customer_id := "VEND-" ++ pad 3 (randint 1 50 (o 6 i))
            payment_method := choiceNE ["Bank Transfer", "M-Pesa", "Cheque"]
              (List.cons_ne_nil _ _) (o 7 i)
            status := "Posted" } : FinTxRow)) (List.range 100)
  pure (salesRows ++ expenses)

def traffic_pages : List String :=
  ["/", "/products", "/products/skincare", "/products/haircare",
   "/about", "/contact", "/cart", "/checkout", "/blog"]

/-- `generate_website_traffic`: 30 days, 50–200 sessions per day, 1–10 page
views per session; 5% of views convert and are stamped with a customer id
drawn from `B2C-1000` … `B2C-1050`. -/
def generate_website_traffic (o : ℕ → ℕ → ℚ) : List TrafficRow :=
  let sessions := (List.range 30).flatMap (fun day =>
    (List.range (randint 50 200 (o 0 day)).toNat).map (fun s => (day, s)))
  sessions.enum.flatMap (fun p =>
    let sIdx : ℕ := p.1
    let day := p.2.1
    let j := Nat.pair day p.2.2
    let session_start := dtEnc (dateEnc 2024 6 (1 + (day : ℤ)))
      ((randint 8 22 (o 1 j)) * 3600 + (randint 0 59 (o 2 j)) * 60)
    let page_views := randint 1 10 (o 3 j)
    let session_duration := randint 30 1800 (o 4 j)
    (List.range page_views.toNat).map (fun v =>
      let jv := Nat.pair j v
      let view_time := session_start + randint 0 session_duration (o 5 jv)
      let converted := decide (rand (o 6 jv) < 0.05)
      let customer_id :=
        if converted then "B2C-" ++ pad 4 (randint 1000 1050 (o 7 jv)) else ""
      { session_id := "SESS-" ++ pad 6 ((sIdx : ℤ) + 1)
        timestamp := view_time
        page_url := choiceNE traffic_pages (by decide) (o 8 jv)
        referrer := choiceNE ["Direct", "Google", "Facebook", "Instagram", "Email"]
          (List.cons_ne_nil _ _) (o 9 jv)
        device_type := choiceNE ["Desktop", "Mobile", "Tablet"]
          (List.cons_ne_nil _ _) (o 10 jv)
        location := choiceNE ["Nairobi", "Mombasa", "Kisumu", "Nakuru", "Eldoret",
          "International"] (List.cons_ne_nil _ _) (o 11 jv)
        session_duration_seconds := session_duration
        page_views := page_views
        converted := converted
        customer_id := customer_id }))

/-- `generate_production_analytics`: one row per completed batch. -/
def generate_production_analytics (batches : List BatchRow) (o : ℕ → ℕ → ℚ) :
    List PAnalyticsRow :=
  (batches.filter (fun b => b.status == "Completed")).enum.map (fun p =>
    let i : ℕ := p.1
    let batch := p.2
    let oee := uniform 70 95 (o 0 i)
    let downtime := batch.completion_time_hours * uniform 0.05 0.20 (o 1 i)
    { analytics_id := "PROD-ANAL-" ++ pad 4 ((i : ℤ) + 1)
      date := batch.production_date
      batch_id := batch.batch_id
      equipment_id := batch.equipment_id
      oee_percentage := pyRound 2 oee
      yield_rate := pyRound 2 batch.yield_percentage
      cycle_time_hours := pyRound 2 batch.completion_time_hours
      downtime_hours := pyRound 2 downtime
      quality_score := pyRound 1 batch.quality_score
      cost_variance := pyRound 2 (uniform (-0.1) 0.1 (o 2 i) * batch.total_cost)
      energy_consumption := pyRound 2 (batch.total_cost * uniform 0.05 0.15 (o 3 i))
      scrap_percentage := pyRound 2 (100 - batch.yield_percentage) })

/-- The turnover/days-outstanding computation of
`generate_inventory_analytics`: when the item's current stock is positive,
turnover is cumulative issues over stock and days-outstanding is
`365/turnover` (365 when turnover is 0); when stock is not positive, both
are set to 0. -/
def invMetrics (total_issues avg_inventory : ℚ) : ℚ × ℚ :=
  if 0 < avg_inventory then
    let turnover_rate := total_issues / avg_inventory
    (turnover_rate, if 0 < turnover_rate then 365 / turnover_rate else 365)
  else (0, 0)

/-- `generate_inventory_analytics`: one row per (item, month of 2024) with at
least one transaction for that sku dated on or before the 15th of the month. -/
def generate_inventory_analytics (items : List ItemRow) (txs : List InvTxRow)
    (o : ℕ → ℕ → ℚ) : List IAnalyticsRow :=
  let srcs := items.enum.flatMap (fun p =>
    let ii : ℕ := p.1
    let item := p.2
    (List.range 12).filterMap (fun m0 =>
      let month : ℕ := m0 + 1
      let analysis_date := dateEnc 2024 (month : ℤ) 15
      let item_transactions := txs.filter (fun t =>
        t.sku == item.sku && decide (t.transaction_date ≤ analysis_date))
      if item_transactions.isEmpty then none
      else some (item, month, item_transactions, Nat.pair ii m0)))
  srcs.enum.map (fun q =>
    let i : ℕ := q.1
    let item := q.2.1
    let month := q.2.2.1
    let item_transactions := q.2.2.2.1
    let j := q.2.2.2.2
    let total_issues : ℤ :=
      |((item_transactions.filter (fun t => t.transaction_type == "Sales Issue")).map
        (·.quantity)).sum|
    let m := invMetrics (total_issues : ℚ) ((item.current_stock : ℤ) : ℚ)
    let abc_class := if (100000 : ℚ) < item.total_value then "A"
      else if (50000 : ℚ) < item.total_value then "B" else "C"
    { analytics_id := "INV-ANAL-" ++ pad 4 ((i : ℤ) + 1)
      date := dateEnc 2024 (month : ℤ) 15
      sku := item.sku
      category := item.category
      stock_turnover_rate := pyRound 2 m.1
      days_inventory_outstanding := pyRound 1 m.2
      stockout_frequency := pyRound 3 (uniform 0 0.2 (o 0 j))
      holding_cost_percentage := pyRound 2 (uniform 0.15 0.35 (o 1 j))
      abc_classification := abc_class
      excess_stock_value := pyRound 2 (item.total_value * uniform 0 0.3 (o 2 j))
      stockout_value := pyRound 2 (item.total_value * uniform 0 0.1 (o 3 j))
      forecast_accuracy := pyRound 3 (uniform 0.7 0.95 (o 4 j)) })

def audit_actions : List (String × List String) := [
  ("Production", ["CREATE_BATCH", "UPDATE_FORMULATION", "VIEW_REPORT", "APPROVE_QC"]),
  ("Inventory", ["ADD_STOCK", "ISSUE_STOCK", "TRANSFER", "ADJUST"]),
  ("Sales", ["CREATE_ORDER", "PROCESS_PAYMENT", "ISSUE_INVOICE", "VIEW_CUSTOMER"]),
  ("Finance", ["POST_TRANSACTION", "GENERATE_REPORT", "APPROVE_PAYMENT", "RECONCILE"]),
  ("HR", ["ADD_EMPLOYEE", "UPDATE_SALARY", "APPROVE_LEAVE", "GENERATE_PAYROLL"]),
  ("System", ["LOGIN", "LOGOUT", "CHANGE_SETTING", "VIEW_AUDIT"])]

/-- `datetime(2024, 3, 1) + timedelta(days=off)` for `off < 90`
(March 1 to May 29, 2024). -/
def marPlus (off : ℕ) : ℤ :=
  if off < 31 then dateEnc 2024 3 (1 + (off : ℤ))
  else if off < 61 then dateEnc 2024 4 ((off : ℤ) - 30)
  else dateEnc 2024 5 ((off : ℤ) - 60)

/-- `generate_audit_logs`: 90 days from 2024-03-01 with 10–50 events per
day; the module depends on the acting employee's position. -/
def generate_audit_logs (tenants : List TenantRow) (employees : List EmployeeRow)
    (salesArg : List SaleRow) (o : ℕ → ℕ → ℚ) : Option (List AuditRow) :=
  let _ := salesArg
  let users := employees.map (fun e => (e.employee_id, e.position))
  let logSources := (List.range 90).flatMap (fun day =>
    (List.range (randint 10 50 (o 0 day)).toNat).map (fun k => (day, k)))
  mapOpt (fun p => do
    let i : ℕ := p.1
    let day := p.2.1
    let j := Nat.pair day p.2.2
    let user ← choice users (o 1 j)
    let tenant ← choice (tenants.map (·.tenant_id)) (o 2 j)
    let module := if containsSub user.2 "Manager" then
        choiceNE ["Production", "Inventory", "Sales", "Finance", "HR"]
          (List.cons_ne_nil _ _) (o 3 j)
      else if containsSub user.2 "Sales" then "Sales"
      else if containsSub user.2 "Production" then "Production"
      else choiceNE ["System", "Inventory", "HR"] (List.cons_ne_nil _ _) (o 4 j)
    let action ← choice ((audit_actions.lookup module).getD ["VIEW", "UPDATE"]) (o 5 j)
    let resource_id := choiceNE
      ["BATCH-" ++ pad 4 (randint 1 100 (o 9 j)),
       "PROD-" ++ pad 4 (randint 1 50 (o 10 j)),
       "CUST-" ++ pad 4 (randint 1 100 (o 11 j))] (List.cons_ne_nil _ _) (o 12 j)
    pure ({ log_id := "AUDIT-" ++ pad 8 ((i : ℤ) + 1)
            timestamp := dtEnc (marPlus day) ((randint 8 20 (o 6 j)) * 3600
              + (randint 0 59 (o 7 j)) * 60 + randint 0 59 (o 8 j))
            tenant_id := tenant
            user_id := user.1
            user_role := user.2
            module := module
            action := action
            resource := choiceNE ["Batch", "Product", "Customer", "Order", "Employee",
              "Transaction"] (List.cons_ne_nil _ _) (o 13 j)
            resource_id := resource_id
            ip_address := "192.168." ++ toString (randint 1 255 (o 14 j)) ++ "."
              ++ toString (randint 1 255 (o 15 j))
            success := choiceNE [true, true, true, false] (List.cons_ne_nil _ _) (o 16 j)
            details := action ++ " operation on " ++ module ++ " module" } : AuditRow))
    logSources.enum

/-! ## Serializing rows to DataFrames

Each `toCells` lists the record's fields exactly as the corresponding dict
literal in the source, in its key order; `pd.DataFrame(list_of_dicts)`
becomes `dfOfRows`. -/

def TenantRow.toCells (r : TenantRow) : List (String × Value) :=
  [("tenant_id", .vStr r.tenant_id), ("tenant_name", .vStr r.tenant_name),
   ("business_type", .vStr r.business_type), ("industry", .vStr r.industry),
   ("subscription_plan", .vStr r.subscription_plan),
   ("subscription_start", .vDate r.subscription_start),
   ("subscription_end", .vDate r.subscription_end), ("max_users", .vInt r.max_users),
   ("active_users", .vInt r.active_users), ("monthly_fee", .vFloat r.monthly_fee),
   ("status", .vStr r.status), ("contact_email", .vStr r.contact_email),
   ("contact_phone", .vStr r.contact_phone)]

def FormulationRow.toCells (r : FormulationRow) : List (String × Value) :=
  [("formulation_id", .vStr r.formulation_id), ("product_name", .vStr r.product_name),
   ("product_category", .vStr r.product_category), ("version", .vStr r.version),
   ("status", .vStr r.status), ("created_date", .vDate r.created_date),
   ("expected_yield_percentage", .vFloat r.expected_yield_percentage),
   ("production_cost_per_unit", .vFloat r.production_cost_per_unit),
   ("target_cycle_time_hours", .vFloat r.target_cycle_time_hours),
   ("quality_standards", .vStr r.quality_standards)]

def MaterialRow.toCells (r : MaterialRow) : List (String × Value) :=
  [("material_id", .vStr r.material_id), ("material_name", .vStr r.material_name),
   ("category", .vStr r.category), ("supplier_id", .vStr r.supplier_id),
   ("unit_of_measure", .vStr r.unit_of_measure), ("unit_cost", .vFloat r.unit_cost),
   ("min_stock_level", .vInt r.min_stock_level), ("current_stock", .vInt r.current_stock),
   ("shelf_life_days", .vInt r.shelf_life_days),
   ("storage_requirements", .vStr r.storage_requirements)]

def EmployeeRow.toCells (r : EmployeeRow) : List (String × Value) :=
  [("employee_id", .vStr r.employee_id), ("first_name", .vStr r.first_name),
   ("last_name", .vStr r.last_name), ("email", .vStr r.email), ("phone", .vStr r.phone),
   ("department", .vStr r.department), ("position", .vStr r.position),
   ("hire_date", .vDate r.hire_date), ("salary", .vFloat r.salary),
   ("employment_type", .vStr r.employment_type), ("supervisor_id", .vStr r.supervisor_id),
   ("shift_pattern", .vStr r.shift_pattern), ("active", .vBool r.active)]

def CustomerRow.toCells (r : CustomerRow) : List (String × Value) :=
  [("customer_id", .vStr r.customer_id), ("customer_name", .vStr r.customer_name),
   ("customer_type", .vStr r.customer_type), ("email", .vStr r.email),
   ("phone", .vStr r.phone), ("address", .vStr r.address), ("city", .vStr r.city),
   ("country", .vStr r.country), ("customer_since", .vDate r.customer_since),
   ("loyalty_points", .vInt r.loyalty_points),
   ("total_purchases", .vFloat r.total_purchases),
   ("last_purchase_date", .vDate r.last_purchase_date)]

def BatchRow.toCells (r : BatchRow) : List (String × Value) :=
  [("batch_id", .vStr r.batch_id), ("formulation_id", .vStr r.formulation_id),
   ("production_date", .vDate r.production_date),
   ("planned_quantity", .vInt r.planned_quantity),
   ("actual_quantity", .vInt r.actual_quantity),
   ("yield_percentage", .vFloat r.yield_percentage), ("status", .vStr r.status),
   ("equipment_id", .vStr r.equipment_id), ("supervisor_id", .vStr r.supervisor_id),
   ("quality_score", .vFloat r.quality_score), ("total_cost", .vFloat r.total_cost),
   ("completion_time_hours", .vFloat r.completion_time_hours)]

def ItemRow.toCells (r : ItemRow) : List (String × Value) :=
  [("sku", .vStr r.sku), ("item_name", .vStr r.item_name), ("category", .vStr r.category),
   ("unit_of_measure", .vStr r.unit_of_measure), ("current_stock", .vInt r.current_stock),
   ("min_stock_level", .vInt r.min_stock_level),
   ("max_stock_level", .vInt r.max_stock_level),
   ("average_unit_cost", .vFloat r.average_unit_cost),
   ("total_value", .vFloat r.total_value), ("last_restock_date", .vDate r.last_restock_date),
   ("expiry_date", .vDate r.expiry_date), ("storage_location", .vStr r.storage_location)]

def InvTxRow.toCells (r : InvTxRow) : List (String × Value) :=
  [("transaction_id", .vStr r.transaction_id),
   ("transaction_date", .vDate r.transaction_date),
   ("transaction_type", .vStr r.transaction_type), ("sku", .vStr r.sku),
   ("batch_id", .vStr r.batch_id), ("quantity", .vInt r.quantity),
   ("unit_cost", .vFloat r.unit_cost), ("total_value", .vFloat r.total_value),
   ("location_id", .vStr r.location_id),
   ("reference_document", .vStr r.reference_document),
   ("employee_id", .vStr r.employee_id)]

def SaleRow.toCells (r : SaleRow) : List (String × Value) :=
  [("transaction_id", .vStr r.transaction_id),
   ("transaction_date", .vDatetime r.transaction_date),
   ("customer_id", .vStr r.customer_id), ("sku", .vStr r.sku),
   ("quantity", .vInt r.quantity), ("unit_price", .vFloat r.unit_price),
   ("total_amount", .vFloat r.total_amount),
   ("discount_amount", .vFloat r.discount_amount), ("tax_amount", .vFloat r.tax_amount),
   ("net_amount", .vFloat r.net_amount), ("payment_method", .vStr r.payment_method),
   ("payment_status", .vStr r.payment_status), ("sales_channel", .vStr r.sales_channel),
   ("employee_id", .vStr r.employee_id)]

def OrderRow.toCells (r : OrderRow) : List (String × Value) :=
  [("order_id", .vStr r.order_id), ("order_date", .vDatetime r.order_date),
   ("customer_id", .vStr r.customer_id), ("total_amount", .vFloat r.total_amount),
   ("shipping_amount", .vFloat r.shipping_amount), ("tax_amount", .vFloat r.tax_amount),
   ("discount_amount", .vFloat r.discount_amount), ("net_amount", .vFloat r.net_amount),
   ("payment_status", .vStr r.payment_status), ("order_status", .vStr r.order_status),
   ("shipping_method", .vStr r.shipping_method),
   ("tracking_number", .vStr r.tracking_number),
   ("website_session_id", .vStr r.website_session_id)]

def AttRow.toCells (r : AttRow) : List (String × Value) :=
  [("attendance_id", .vStr r.attendance_id), ("employee_id", .vStr r.employee_id),
   ("date", .vDate r.date), ("shift_start", .vTime r.shift_start),
   ("shift_end", .vTime r.shift_end), ("actual_start", .vTime r.actual_start),
   ("actual_end", .vTime r.actual_end), ("hours_worked", .vFloat r.hours_worked),
   ("overtime_hours", .vFloat r.overtime_hours),
   ("attendance_status", .vStr r.attendance_status), ("remarks", .vStr r.remarks)]

def AccountRow.toCells (r : AccountRow) : List (String × Value) :=
  [("account_code", .vStr r.account_code), ("account_name", .vStr r.account_name),
   ("account_type", .vStr r.account_type), ("category", .vStr r.category),
   ("normal_balance", .vStr r.normal_balance),
   ("opening_balance", .vFloat r.opening_balance),
   ("current_balance", .vFloat r.current_balance),
   ("parent_account", .vStr r.parent_account), ("is_active", .vBool r.is_active)]

def FinTxRow.toCells (r : FinTxRow) : List (String × Value) :=
  [("transaction_id", .vStr r.transaction_id),
   ("transaction_date", .vDate r.transaction_date),
   ("transaction_type", .vStr r.transaction_type), ("account_code", .vStr r.account_code),
   ("description", .vStr r.description), ("debit_amount", .vFloat r.debit_amount),
   ("credit_amount", .vFloat r.credit_amount), ("balance", .vFloat r.balance),
   ("reference_number", .vStr r.reference_number),
   ("vendor_customer_id", .vStr r.vendor_customer_id),
   ("payment_method", .vStr r.payment_method), ("status", .vStr r.status)]

def TrafficRow.toCells (r : TrafficRow) : List (String × Value) :=
  [("session_id", .vStr r.session_id), ("timestamp", .vDatetime r.timestamp),
   ("page_url", .vStr r.page_url), ("referrer", .vStr r.referrer),
   ("device_type", .vStr r.device_type), ("location", .vStr r.location),
   ("session_duration_seconds", .vInt r.session_duration_seconds),
   ("page_views", .vInt r.page_views), ("converted", .vBool r.converted),
   ("customer_id", .vStr r.customer_id)]

def PAnalyticsRow.toCells (r : PAnalyticsRow) : List (String × Value) :=
  [("analytics_id", .vStr r.analytics_id), ("date", .vDate r.date),
   ("batch_id", .vStr r.batch_id), ("equipment_id", .vStr r.equipment_id),
   ("oee_percentage", .vFloat r.oee_percentage), ("yield_rate", .vFloat r.yield_rate),
   ("cycle_time_hours", .vFloat r.cycle_time_hours),
   ("downtime_hours", .vFloat r.downtime_hours),
   ("quality_score", .vFloat r.quality_score), ("cost_variance", .vFloat r.cost_variance),
   ("energy_consumption", .vFloat r.energy_consumption),
   ("scrap_percentage", .vFloat r.scrap_percentage)]

def IAnalyticsRow.toCells (r : IAnalyticsRow) : List (String × Value) :=
  [("analytics_id", .vStr r.analytics_id), ("date", .vDate r.date),
   ("sku", .vStr r.sku), ("category", .vStr r.category),
   ("stock_turnover_rate", .vFloat r.stock_turnover_rate),
   ("days_inventory_outstanding", .vFloat r.days_inventory_outstanding),
   ("stockout_frequency", .vFloat r.stockout_frequency),
   ("holding_cost_percentage", .vFloat r.holding_cost_percentage),
   ("abc_classification", .vStr r.abc_classification),
   ("excess_stock_value", .vFloat r.excess_stock_value),
   ("stockout_value", .vFloat r.stockout_value),
   ("forecast_accuracy", .vFloat r.forecast_accuracy)]

def AuditRow.toCells (r : AuditRow) : List (String × Value) :=
  [("log_id", .vStr r.log_id), ("timestamp", .vDatetime r.timestamp),
   ("tenant_id", .vStr r.tenant_id), ("user_id", .vStr r.user_id),
   ("user_role", .vStr r.user_role), ("module", .vStr r.module),
   ("action", .vStr r.action), ("resource", .vStr r.resource),
   ("resource_id", .vStr r.resource_id), ("ip_address", .vStr r.ip_address),
   ("success", .vBool r.success), ("details", .vStr r.details)]

/-- `pd.DataFrame(list_of_dicts)`: columns in the key order of the first
row, each column holding that key's value from every row (`NaN`, here
`vNull`, if a row lacks the key — generated rows never do). -/
def dfOfRows (rows : List (List (String × Value))) : DataFrame :=
  match rows with
  | [] => ⟨[]⟩
  | r :: _ => ⟨r.map (fun kv =>
      (kv.1, rows.map (fun row => (row.lookup kv.1).getD Value.vNull)))⟩

/-! ## The pipeline (`generate_demo_data`) -/

/-- One draw family per random generator; the source threads one global
Mersenne Twister through all of them, which this model splits into
independent per-generator families (the claims depend only on the draw
ranges, not on the underlying bit stream). -/
structure PipelineOracles : Type where
  oFormulations : ℕ → ℕ → ℚ
  oMaterials : ℕ → ℕ → ℚ
  oEmployees : ℕ → ℕ → ℚ
  oCustomers : ℕ → ℕ → ℚ
  oBatches : ℕ → ℕ → ℚ
  oItems : ℕ → ℕ → ℚ
  oInvTx : ℕ → ℕ → ℚ
  oSales : ℕ → ℕ → ℚ
  oOrders : ℕ → ℕ → ℚ
  oAttendance : ℕ → ℕ → ℚ
  oAccounts : ℕ → ℕ → ℚ
  oFinTx : ℕ → ℕ → ℚ
  oTraffic : ℕ → ℕ → ℚ
  oProdAnalytics : ℕ → ℕ → ℚ
  oInvAnalytics : ℕ → ℕ → ℚ
  oAudit : ℕ → ℕ → ℚ

def AdmAll (O : PipelineOracles) : Prop :=
  Adm O.oFormulations ∧ Adm O.oMaterials ∧ Adm O.oEmployees ∧ Adm O.oCustomers ∧
  Adm O.oBatches ∧ Adm O.oItems ∧ Adm O.oInvTx ∧ Adm O.oSales ∧ Adm O.oOrders ∧
  Adm O.oAttendance ∧ Adm O.oAccounts ∧ Adm O.oFinTx ∧ Adm O.oTraffic ∧
  Adm O.oProdAnalytics ∧ Adm O.oInvAnalytics ∧ Adm O.oAudit

def PipelineOracles.ofStream (u : ℕ → ℚ) : PipelineOracles :=
  let slice : ℕ → ℕ → ℕ → ℚ := fun k i j => u (Nat.pair k (Nat.pair i j))
  { oFormulations := slice 0, oMaterials := slice 1, oEmployees := slice 2,
    oCustomers := slice 3, oBatches := slice 4, oItems := slice 5, oInvTx := slice 6,
    oSales := slice 7, oOrders := slice 8, oAttendance := slice 9, oAccounts := slice 10,
    oFinTx := slice 11, oTraffic := slice 12, oProdAnalytics := slice 13,
    oInvAnalytics := slice 14, oAudit := slice 15 }

/-- Modelled from the spec: `random.seed(seed)` / `np.random.seed(seed)`
install Python's Mersenne Twister seeded state, which is interpreter
library state, not source code of this repository.  It is modelled as a
fixed deterministic stream of rationals in `[0, 1)` computed from the
seed; the development relies only on determinism and the range. -/
def seedStream (seed : ℤ) : ℕ → ℚ :=
  fun n => (((seed.natAbs + n) * 2654435761 + 12345) % 1000000007 : ℕ) / (1000000007 : ℚ)

/-- The body of `generate_demo_data` after the reseed: generators run in
dependency order, the 17 tables are packaged in the order of the source's
`datasets` dict, then every table is validated and replaced by its
coerced version. -/
def runPipeline (O : PipelineOracles) :
    Option (List (String × DataFrame) × List (String × Report)) := do
  let tenants_df := generate_tenants_data
  let employees_df := generate_employees_data O.oEmployees
  let formulations_df := generate_formulations_data O.oFormulations
  let raw_materials_df := generate_raw_materials_data O.oMaterials
  let customers_df := generate_customers_data O.oCustomers
  let batches_df ← generate_production_batches formulations_df employees_df O.oBatches
  let inventory_items_df := generate_inventory_items batches_df formulations_df O.oItems
  let inventory_transactions_df ← generate_inventory_transactions inventory_items_df
    batches_df employees_df formulations_df O.oInvTx
  let sales_df ← generate_sales_transactions inventory_items_df customers_df
    employees_df O.oSales
  let ecommerce_orders_df ← generate_ecommerce_orders customers_df sales_df O.oOrders
  let attendance_df := generate_attendance_data employees_df O.oAttendance
  let accounts_df := generate_financial_accounts O.oAccounts
  let financial_transactions_df ← generate_financial_transactions accounts_df sales_df
    O.oFinTx
  let website_traffic_df := generate_website_traffic O.oTraffic
  let production_analytics_df := generate_production_analytics batches_df O.oProdAnalytics
  let inventory_analytics_df := generate_inventory_analytics inventory_items_df
    inventory_transactions_df O.oInvAnalytics
  let audit_logs_df ← generate_audit_logs tenants_df employees_df sales_df O.oAudit
  let datasets : List (String × DataFrame) := [
    ("dim_tenants", dfOfRows (tenants_df.map TenantRow.toCells)),
    ("dim_employees", dfOfRows (employees_df.map EmployeeRow.toCells)),
    ("dim_formulations", dfOfRows (formulations_df.map FormulationRow.toCells)),
    ("dim_raw_materials", dfOfRows (raw_materials_df.map MaterialRow.toCells)),
    ("dim_customers", dfOfRows (customers_df.map CustomerRow.toCells)),
    ("fact_production_batches", dfOfRows (batches_df.map BatchRow.toCells)),
    ("dim_inventory_items", dfOfRows (inventory_items_df.map ItemRow.toCells)),
    ("fact_inventory_transactions",
      dfOfRows (inventory_transactions_df.map InvTxRow.toCells)),
    ("fact_sales_transactions", dfOfRows (sales_df.map SaleRow.toCells)),
    ("fact_ecommerce_orders", dfOfRows (ecommerce_orders_df.map OrderRow.toCells)),
    ("fact_attendance", dfOfRows (attendance_df.map AttRow.toCells)),
    ("dim_accounts", dfOfRows (accounts_df.map AccountRow.toCells)),
    ("fact_financial_transactions",
      dfOfRows (financial_transactions_df.map FinTxRow.toCells)),
    ("fact_website_traffic", dfOfRows (website_traffic_df.map TrafficRow.toCells)),
    ("fact_production_analytics",
      dfOfRows (production_analytics_df.map PAnalyticsRow.toCells)),
    ("fact_inventory_analytics",
      dfOfRows (inventory_analytics_df.map IAnalyticsRow.toCells)),
    ("fact_audit_logs", dfOfRows (audit_logs_df.map AuditRow.toCells))]
  let validated := datasets.map (fun p =>
    let vr := validate_table p.1 p.2
    ((p.1, vr.1), (p.1, vr.2)))
  pure (validated.map (·.1), validated.map (·.2))

/-- `generate_demo_data(seed)`.  Its first two statements reseed the global
RNGs from `seed`, so the ambient pre-call RNG state `g` is discarded and
the run is a function of the seed alone. -/
def generate_demo_data (seed : ℤ) (g : ℕ → ℚ) :
    Option (List (String × DataFrame) × List (String × Report)) :=
  let _ := g
  runPipeline (PipelineOracles.ofStream (seedStream seed))

/-! ## Concrete witness inputs -/

/-- A table for the unknown-table witness. -/
def dfUnknownW : DataFrame := ⟨[("a", [Value.vInt 1, Value.vNull])]⟩

/-- A `dim_tenants`-shaped table with one row, an extra column and a null in
a required (date) column: exercises the warning paths of the validator. -/
def dfTenantsW : DataFrame := ⟨[
  ("tenant_id", [Value.vStr "t1"]), ("tenant_name", [Value.vStr "T"]),
  ("business_type", [Value.vStr "M"]), ("industry", [Value.vStr "C"]),
  ("subscription_plan", [Value.vStr "E"]), ("subscription_start", [Value.vNull]),
  ("subscription_end", [Value.vDate (dateEnc 2025 12 31)]),
  ("max_users", [Value.vInt 50]), ("active_users", [Value.vInt 35]),
  ("monthly_fee", [Value.vFloat 250000]), ("status", [Value.vStr "Active"]),
  ("contact_email", [Value.vStr "a@b"]), ("contact_phone", [Value.vStr "+254"]),
  ("extra_col", [Value.vInt 7])]⟩

/-- A `dim_tenants` table missing most required columns but carrying one
coercible required column (an integer id that stringifies). -/
def dfMissingW : DataFrame := ⟨[("tenant_id", [Value.vInt 5])]⟩

/-- The all-zeros draw family: every draw takes its minimum value. -/
def oZ : ℕ → ℕ → ℚ := fun _ _ => 0

/-- An Active formulation for witness runs. -/
def formulationW : FormulationRow :=
  { formulation_id := "FMT-0001", product_name := "Vitamin C Serum",
    product_category := "Skincare", version := "v1.0", status := "Active",
    created_date := dateEnc 2023 1 1, expected_yield_percentage := 90,
    production_cost_per_unit := 100, target_cycle_time_hours := 10,
    quality_standards := "KEBS" }

/-- A Production-department employee for witness runs. -/
def employeeProdW : EmployeeRow :=
  { employee_id := "EMP-0001", first_name := "John", last_name := "Smith",
    email := "john.smith@cintabeauty.co.ke", phone := "+254 700 000 000",
    department := "Production", position := "Machine Operator",
    hire_date := dateEnc 2020 1 1, salary := 50000, employment_type := "Permanent",
    supervisor_id := "", shift_pattern := "Morning", active := true }

/-- A Sales & Marketing employee for witness runs. -/
def employeeSalesW : EmployeeRow :=
  { employee_id := "EMP-0002", first_name := "Mary", last_name := "Jones",
    email := "mary.jones@cintabeauty.co.ke", phone := "+254 700 000 001",
    department := "Sales & Marketing", position := "Sales Manager",
    hire_date := dateEnc 2020 1 1, salary := 200000, employment_type := "Permanent",
    supervisor_id := "", shift_pattern := "Morning", active := true }

/-- An inventory item with positive stock for witness runs. -/
def itemW : ItemRow :=
  { sku := "VITCSER-SKI-100", item_name := "Vitamin C Serum", category := "Skincare",
    unit_of_measure := "pcs", current_stock := 5, min_stock_level := 10,
    max_stock_level := 500, average_unit_cost := 100, total_value := 500,
    last_restock_date := dateEnc 2024 1 1, expiry_date := dateEnc 2025 1 1,
    storage_location := "Warehouse A" }

/-- A Business customer for witness runs. -/
def customerW : CustomerRow :=
  { customer_id := "B2B-0001", customer_name := "Nairobi Beauty Mart",
    customer_type := "Business", email := "orders@nairobibeautymart.co.ke",
    phone := "+254 700 000 002", address := "1 Moi Avenue", city := "Nairobi",
    country := "Kenya", customer_since := dateEnc 2020 1 1, loyalty_points := 1000,
    total_purchases := 100000, last_purchase_date := dateEnc 2024 1 1 }

/-- The batch table of the witness run and its first row. -/
def batchesW : List BatchRow :=
  (generate_production_batches [formulationW] [employeeProdW] oZ).getD []

def batchRowW : BatchRow := batchesW.head?.getD default

/-- The sales table of the witness run and its first row. -/
def salesW : List SaleRow :=
  (generate_sales_transactions [itemW] [customerW] [employeeSalesW] oZ).getD []

def saleRowW : SaleRow := salesW.head?.getD default

/-- An inventory item with zero stock (the C3 scenario). -/
def itemZeroW : ItemRow :=
  { itemW with
    sku := "ZERO-SKI-100"
    item_name := "Zero Item"
    current_stock := 0
    total_value := 0 }

/-- A stock-transfer transaction dated before the first analysis date,
so the zero-stock item still gets analytics rows. -/
def txTransferW : InvTxRow :=
  { transaction_id := "INV-000001", transaction_date := dateEnc 2024 1 10,
    transaction_type := "Stock Transfer", sku := "ZERO-SKI-100",
    batch_id := "BATCH-0001", quantity := 10, unit_cost := 1, total_value := 10,
    location_id := "WH01", reference_document := "TRF-1000",
    employee_id := "EMP-0001" }

/-- A sales-issue transaction against the positive-stock witness item. -/
def txSaleIssueW : InvTxRow :=
  { txTransferW with
    sku := "VITCSER-SKI-100"
    transaction_type := "Sales Issue"
    quantity := -2
    total_value := -200 }

def invTxW : List InvTxRow :=
  (generate_inventory_transactions [itemW] [] [employeeProdW] [] oZ).getD []

def invTxRowW : InvTxRow := invTxW.head?.getD default

def invAnW : List IAnalyticsRow := generate_inventory_analytics [itemW] [txSaleIssueW] oZ

def invAnRowW : IAnalyticsRow := invAnW.head?.getD default

def trafficW : List TrafficRow := generate_website_traffic oZ

def trafficRowW : TrafficRow := trafficW.head?.getD default

def customersW : List CustomerRow := generate_customers_data oZ

def customerRowW : CustomerRow := customersW.head?.getD default

/-- The 62 customer ids any run of `generate_customers_data` produces. -/
def customersIdList : List String :=
  (List.range 12).map (fun (i : ℕ) => "B2B-" ++ pad 4 ((i : ℤ) + 1)) ++
  (List.range 50).map (fun (i : ℕ) => "B2C-" ++ pad 4 ((i : ℤ) + 13))

/-- Draws that make every batch status draw pick "In Progress"
(site 5, value 0.7 selects index 3 of the five-element status list). -/
def oBatchCex : ℕ → ℕ → ℚ := fun i _ => if i = 5 then 7 / 10 else 0

/-- A full-size batch table in which no batch is Completed. -/
def batchesCexW : List BatchRow :=
  (generate_production_batches (generate_formulations_data oZ)
    (generate_employees_data oZ) oBatchCex).getD []

instance decidableOptionBAll {α : Type} (p : α → Prop) [DecidablePred p] :
    (o : Option α) → Decidable (∀ a ∈ o, p a)
  | none => .isTrue (by intro a h; simp at h)
  | some x => decidable_of_iff (p x) (by simp)

/-! # Lemmas and theorems -/

/-! ## List and primitive lemmas -/

theorem mapOpt_mem {α β : Type} {f : α → Option β} : ∀ {xs : List α} {ys : List β},
    mapOpt f xs = some ys → ∀ y ∈ ys, ∃ x ∈ xs, f x = some y := by
  intro xs
  induction xs with
  | nil => intro ys h y hy; simp [mapOpt] at h; subst h; simp at hy
  | cons x xs ih =>
    intro ys h y hy
    simp only [mapOpt, Option.bind_eq_bind] at h
    cases hx : f x with
    | none => rw [hx] at h; simp at h
    | some b =>
      rw [hx] at h
      simp only [Option.some_bind] at h
      cases hxs : mapOpt f xs with
      | none => rw [hxs] at h; simp at h
      | some bs =>
        rw [hxs] at h
        simp only [Option.some_bind] at h
        have h' : b :: bs = ys := Option.some.inj h
        subst h'
        rcases List.mem_cons.mp hy with rfl | hmem
        · exact ⟨x, List.mem_cons_self x xs, hx⟩
        · obtain ⟨x', hx', hfx'⟩ := ih hxs y hmem
          exact ⟨x', List.mem_cons_of_mem _ hx', hfx'⟩

theorem mem_mapOpt_getD {α β : Type} {f : α → Option β} {xs : List α} {y : β}
    (hy : y ∈ (mapOpt f xs).getD []) : ∃ x ∈ xs, f x = some y := by
  cases h : mapOpt f xs with
  | none => rw [h] at hy; simp at hy
  | some ys => rw [h] at hy; exact mapOpt_mem h y hy

theorem choice_mem {α : Type} {l : List α} {u : ℚ} {x : α}
    (h : choice l u = some x) : x ∈ l := by
  unfold choice at h
  exact List.get?_mem h

theorem choiceNE_mem {α : Type} (l : List α) (h : l ≠ []) (u : ℚ) :
    choiceNE l h u ∈ l := List.get_mem _ _ _

theorem head?_mem {α : Type} {l : List α} {a : α} (h : l.head? = some a) : a ∈ l := by
  cases l with
  | nil => simp at h
  | cons x xs => simp at h; subst h; exact List.mem_cons_self _ _

/-- `randint a b u ∈ [a, b]` for an admissible draw. -/
theorem randint_bounds {a b : ℤ} {u : ℚ} (hu : unit01 u) (hab : a ≤ b) :
    a ≤ randint a b u ∧ randint a b u ≤ b := by
  obtain ⟨h0, h1⟩ := hu
  have hba : (0 : ℚ) < (b : ℚ) - (a : ℚ) + 1 := by
    have : (a : ℚ) ≤ (b : ℚ) := by exact_mod_cast hab
    linarith
  constructor
  · have : (0 : ℚ) ≤ u * ((b : ℚ) - (a : ℚ) + 1) := mul_nonneg h0 (le_of_lt hba)
    have hfl : (0 : ℤ) ≤ ⌊u * ((b : ℚ) - (a : ℚ) + 1)⌋ := Int.floor_nonneg.mpr this
    unfold randint; omega
  · have hlt : u * ((b : ℚ) - (a : ℚ) + 1) < (b : ℚ) - (a : ℚ) + 1 := by
      calc u * ((b : ℚ) - (a : ℚ) + 1) < 1 * ((b : ℚ) - (a : ℚ) + 1) := by
            exact mul_lt_mul_of_pos_right h1 hba
        _ = (b : ℚ) - (a : ℚ) + 1 := one_mul _
    have : ⌊u * ((b : ℚ) - (a : ℚ) + 1)⌋ < b - a + 1 := by
      apply Int.floor_lt.mpr
      push_cast
      exact hlt
    unfold randint; omega

/-- `uniform a b u ∈ [a, b]` for an admissible draw. -/
theorem uniform_bounds {a b u : ℚ} (hu : unit01 u) (hab : a ≤ b) :
    a ≤ uniform a b u ∧ uniform a b u ≤ b := by
  obtain ⟨h0, h1⟩ := hu
  unfold uniform
  constructor
  · nlinarith
  · nlinarith

/-- Round-half-to-even is within one half of its argument. -/
theorem abs_sub_roundEven (x : ℚ) : |x - (roundEven x : ℚ)| ≤ 1 / 2 := by
  unfold roundEven
  by_cases h : Int.fract x = 1 / 2
  · rw [← Int.self_sub_floor] at h
    by_cases he : Even ⌊x⌋
    · rw [if_pos (by rw [Int.self_sub_floor] at h; exact h), if_pos he, h]
      rw [abs_le]
      constructor <;> norm_num
    · rw [if_neg he, if_pos (by rw [Int.self_sub_floor] at h; exact h)]
      push_cast
      have h2 : x - ((⌊x⌋ : ℚ) + 1) = -(1 / 2) := by linarith
      rw [h2]
      rw [abs_le]
      constructor <;> norm_num
  · rw [if_neg h]
    exact abs_sub_round x

/-- Python rounding to `n` decimals changes the value by at most
`1 / (2 * 10 ^ n)`. -/
theorem abs_sub_pyRound (n : ℕ) (x : ℚ) : |x - pyRound n x| ≤ 1 / (2 * 10 ^ n) := by
  unfold pyRound
  have h10 : (0 : ℚ) < 10 ^ n := by positivity
  have := abs_sub_roundEven (x * 10 ^ n)
  have key : |x - (roundEven (x * 10 ^ n) : ℚ) / 10 ^ n| =
      |x * 10 ^ n - (roundEven (x * 10 ^ n) : ℚ)| / 10 ^ n := by
    rw [← abs_of_pos h10, ← abs_div]
    congr 1
    field_simp
  rw [key]
  rw [div_le_div_iff h10 (by positivity)]
  calc |x * 10 ^ n - (roundEven (x * 10 ^ n) : ℚ)| * (2 * 10 ^ n)
      ≤ (1 / 2) * (2 * 10 ^ n) := by
        apply mul_le_mul_of_nonneg_right this (by positivity)
    _ = 1 * 10 ^ n := by ring

/-- Membership through a `lookup` that succeeds. -/
theorem lookup_mem {α β : Type} [BEq α] [LawfulBEq α] {l : List (α × β)} {k : α} {v : β}
    (h : l.lookup k = some v) : (k, v) ∈ l := by
  induction l with
  | nil => simp [List.lookup] at h
  | cons p ps ih =>
    cases hk : k == p.1 with
    | true =>
      rw [List.lookup, hk] at h
      have hv : p.2 = v := Option.some.inj h
      have hkk : k = p.1 := eq_of_beq hk
      have hp : (k, v) = p := by rw [hkk, ← hv]
      rw [hp]
      exact List.mem_cons_self _ _
    | false =>
      rw [List.lookup, hk] at h
      exact List.mem_cons_of_mem _ (ih h)

/-! ## Validator lemmas -/

theorem schemas_keys_nodup : ∀ p ∈ SCHEMAS, (p.2.map Prod.fst).Nodup := by decide

theorem getCol_setCol_ne (df : DataFrame) (c c' : String) (cells : List Value)
    (h : c' ≠ c) : getCol (setCol df c cells) c' = getCol df c' := by
  obtain ⟨cols⟩ := df
  simp only [getCol, setCol]
  induction cols with
  | nil => rfl
  | cons p ps ih =>
    simp only [List.map_cons]
    by_cases hpc : (p.1 == c) = true
    · rw [if_pos hpc]
      have hp' : (p.1 == c') = false := by
        have : p.1 = c := eq_of_beq hpc
        rw [this]
        exact beq_eq_false_iff_ne.mpr (Ne.symm h)
      rw [List.find?_cons_of_neg _ (by simp [hp']),
        List.find?_cons_of_neg _ (by simp [hp'])]
      exact ih
    · rw [if_neg hpc]
      by_cases hp' : (p.1 == c') = true
      · rw [List.find?_cons_of_pos _ (by simp [hp']),
          List.find?_cons_of_pos _ (by simp [hp'])]
      · rw [List.find?_cons_of_neg _ (by simp [hp']),
          List.find?_cons_of_neg _ (by simp [hp'])]
        exact ih

theorem getCol_setCol_self (df : DataFrame) (c : String) (cells : List Value)
    (h : (getCol df c).isSome) : getCol (setCol df c cells) c = some cells := by
  obtain ⟨cols⟩ := df
  simp only [getCol, setCol] at *
  induction cols with
  | nil => simp at h
  | cons p ps ih =>
    simp only [List.map_cons]
    by_cases hpc : (p.1 == c) = true
    · rw [List.find?_cons_of_pos _ (by simp [hpc])]
      simp [hpc]
    · rw [if_neg hpc, List.find?_cons_of_neg _ (by simp [hpc])]
      rw [List.find?_cons_of_neg _ (by simp [hpc])] at h
      exact ih h

theorem applyCoercions_getCol_not_mem : ∀ (schema : List (String × SType))
    (df : DataFrame) (col : String), col ∉ schema.map Prod.fst →
    getCol (applyCoercions schema df).1 col = getCol df col := by
  intro schema
  induction schema with
  | nil => intro df col _; rfl
  | cons ct rest ih =>
    intro df col hcol
    simp only [List.map_cons, List.mem_cons] at hcol
    push_neg at hcol
    obtain ⟨hne, hrest⟩ := hcol
    show getCol (applyCoercions (ct :: rest) df).1 col = getCol df col
    rw [applyCoercions]
    cases hg : getCol df ct.1 with
    | none => exact ih df col hrest
    | some cells =>
      cases hc : coerceColumn ct.2 cells with
      | none =>
        simp only [hc]
        exact ih df col hrest
      | some newCells =>
        simp only [hc]
        rw [ih (setCol df ct.1 newCells) col hrest]
        exact getCol_setCol_ne df ct.1 col newCells hne

theorem applyCoercions_getCol : ∀ (schema : List (String × SType)),
    (schema.map Prod.fst).Nodup → ∀ (df : DataFrame) (col : String) (ty : SType),
    (col, ty) ∈ schema → ∀ (cells newCells : List Value),
    getCol df col = some cells → coerceColumn ty cells = some newCells →
    getCol (applyCoercions schema df).1 col = some newCells := by
  intro schema
  induction schema with
  | nil => intro _ df col ty hmem; simp at hmem
  | cons ct rest ih =>
    intro hnd df col ty hmem cells newCells hget hc
    rw [List.map_cons, List.nodup_cons] at hnd
    obtain ⟨hhead, hnd'⟩ := hnd
    rw [applyCoercions]
    rcases List.mem_cons.mp hmem with heq | htail
    · have h1 : ct.1 = col := by rw [← heq]
      have h2 : ct.2 = ty := by rw [← heq]
      cases hg : getCol df ct.1 with
      | none =>
        rw [h1, hget] at hg
        exact Option.noConfusion hg
      | some cells' =>
        have hcells : cells' = cells := by
          rw [h1, hget] at hg
          exact (Option.some.inj hg).symm
        subst hcells
        cases hcc : coerceColumn ct.2 cells' with
        | none =>
          rw [h2, hc] at hcc
          exact Option.noConfusion hcc
        | some newCells' =>
          have hnc : newCells' = newCells := by
            rw [h2, hc] at hcc
            exact (Option.some.inj hcc).symm
          subst hnc
          simp only [hcc]
          rw [applyCoercions_getCol_not_mem rest (setCol df ct.1 newCells') col
            (h1 ▸ hhead)]
          rw [h1]
          exact getCol_setCol_self df col newCells' (by rw [hget]; rfl)
    · have hcolne : col ≠ ct.1 := by
        intro hcontr
        apply hhead
        rw [hcontr] at htail
        have h5 : ((ct.1, ty)).1 ∈ List.map Prod.fst rest :=
          List.mem_map_of_mem Prod.fst htail
        exact h5
      cases hg : getCol df ct.1 with
      | none => exact ih hnd' df col ty htail cells newCells hget hc
      | some cells' =>
        cases hcc : coerceColumn ct.2 cells' with
        | none =>
          simp only [hcc]
          exact ih hnd' df col ty htail cells newCells hget hc
        | some newCells' =>
          simp only [hcc]
          apply ih hnd' (setCol df ct.1 newCells') col ty htail cells newCells _ hc
          rw [getCol_setCol_ne df ct.1 col newCells' hcolne]
          exact hget

theorem applyCoercions_errors_nil : ∀ (schema : List (String × SType)),
    (schema.map Prod.fst).Nodup → ∀ (df : DataFrame),
    (∀ ct ∈ schema, ∀ cells ∈ getCol df ct.1, (coerceColumn ct.2 cells).isSome) →
    (applyCoercions schema df).2 = [] := by
  intro schema
  induction schema with
  | nil => intro _ df _; rfl
  | cons ct rest ih =>
    intro hnd df h
    rw [List.map_cons, List.nodup_cons] at hnd
    obtain ⟨hhead, hnd'⟩ := hnd
    rw [applyCoercions]
    cases hg : getCol df ct.1 with
    | none =>
      exact ih hnd' df (fun ct' hct' cells hcells =>
        h ct' (List.mem_cons_of_mem _ hct') cells hcells)
    | some cells =>
      have hco : (coerceColumn ct.2 cells).isSome :=
        h ct (List.mem_cons_self _ _) cells (by rw [hg]; rfl)
      cases hcc : coerceColumn ct.2 cells with
      | none => rw [hcc] at hco; simp at hco
      | some newCells =>
        simp only [hcc]
        apply ih hnd' (setCol df ct.1 newCells)
        intro ct' hct' cells' hcells'
        have hne : ct'.1 ≠ ct.1 := by
          intro hcontr
          apply hhead
          rw [← hcontr]
          exact List.mem_map_of_mem Prod.fst hct'
        rw [getCol_setCol_ne df ct.1 ct'.1 newCells hne] at hcells'
        exact h ct' (List.mem_cons_of_mem _ hct') cells' hcells'

/-! ## C4 — unknown table name -/

/-- C4: `validate_table` on a table name absent from the schema registry
returns the input table unchanged (no column coerced) together with a
report whose `ok` is false and whose error list has exactly one entry. -/
theorem c4_unknown_table (tableName : String) (df : DataFrame)
    (h : SCHEMAS.lookup tableName = none) :
    (validate_table tableName df).1 = df ∧
    (validate_table tableName df).2.ok = false ∧
    (validate_table tableName df).2.errors.length = 1 := by
  unfold validate_table
  rw [h]
  exact ⟨rfl, rfl, rfl⟩

theorem c4_witness :
    (validate_table "unknown_table" dfUnknownW).1 = dfUnknownW ∧
    (validate_table "unknown_table" dfUnknownW).2.ok = false ∧
    (validate_table "unknown_table" dfUnknownW).2.errors.length = 1 :=
  c4_unknown_table "unknown_table" dfUnknownW rfl

/-! ## C5 — `ok` iff no fatal errors; extras and nulls only warn -/

/-- C5: for a known table name, the report's `ok` is true exactly when its
error list is empty; and whenever no required column is missing and every
present required column coerces successfully, `ok` is true — extra
columns and nulls in required columns can only add warnings, never block
`ok`. -/
theorem c5_ok_iff_no_errors (tableName : String) (schema : List (String × SType))
    (df : DataFrame) (h : SCHEMAS.lookup tableName = some schema) :
    ((validate_table tableName df).2.ok = true ↔
      (validate_table tableName df).2.errors = []) ∧
    (missingCols schema df = [] →
      (∀ ct ∈ schema, ∀ cells ∈ getCol df ct.1, (coerceColumn ct.2 cells).isSome) →
      (validate_table tableName df).2.ok = true) := by
  have hnd : (schema.map Prod.fst).Nodup := schemas_keys_nodup _ (lookup_mem h)
  constructor
  · simp only [validate_table, h]
    exact List.isEmpty_iff
  · intro hmiss hco
    simp [validate_table, h, hmiss, applyCoercions_errors_nil schema hnd df hco]

theorem c5_witness :
    (validate_table "dim_tenants" dfTenantsW).2.ok = true ∧
    (validate_table "dim_tenants" dfTenantsW).2.warnings ≠ [] :=
  ⟨(c5_ok_iff_no_errors "dim_tenants" ((SCHEMAS.lookup "dim_tenants").getD [])
      dfTenantsW rfl).2 (by decide) (by decide), by decide⟩

/-! ## C9 — validation is not atomic on fatal errors -/

/-- C9: with a required column missing the report has `ok = false`, yet the
returned table is not the unchanged input: every present required column
whose coercion succeeds is already replaced by its coerced cells. -/
theorem c9_not_atomic (tableName : String) (schema : List (String × SType))
    (df : DataFrame) (h : SCHEMAS.lookup tableName = some schema)
    (hmiss : missingCols schema df ≠ []) :
    (validate_table tableName df).2.ok = false ∧
    (∀ col ty, (col, ty) ∈ schema → ∀ cells newCells,
      getCol df col = some cells → coerceColumn ty cells = some newCells →
      getCol (validate_table tableName df).1 col = some newCells) := by
  have hnd : (schema.map Prod.fst).Nodup := schemas_keys_nodup _ (lookup_mem h)
  have hF : (missingCols schema df).isEmpty = false := by
    cases hM : missingCols schema df with
    | nil => exact absurd hM hmiss
    | cons a l => rfl
  constructor
  · simp [validate_table, h, hF]
  · intro col ty hmem cells newCells hget hc
    simp only [validate_table, h]
    exact applyCoercions_getCol schema hnd df col ty hmem cells newCells hget hc

theorem c9_witness :
    ((validate_table "dim_tenants" dfMissingW).2.ok = false ∧
     (∀ col ty, (col, ty) ∈ ((SCHEMAS.lookup "dim_tenants").getD []) →
       ∀ cells newCells, getCol dfMissingW col = some cells →
       coerceColumn ty cells = some newCells →
       getCol (validate_table "dim_tenants" dfMissingW).1 col = some newCells)) ∧
    getCol (validate_table "dim_tenants" dfMissingW).1 "tenant_id" =
      some [Value.vStr "5"] :=
  ⟨c9_not_atomic "dim_tenants" ((SCHEMAS.lookup "dim_tenants").getD []) dfMissingW
      rfl (by decide), by decide⟩

theorem oZ_adm : Adm oZ := by
  intro i j
  simp [unit01, oZ]

/-! ## C6 — stored yield matches recomputed yield within rounding -/

/-- C6: in every row of a generated `fact_production_batches` table the
stored `yield_percentage` is within 0.01 of
`actual_quantity / planned_quantity * 100`. -/
theorem c6_yield (formulations : List FormulationRow) (employees : List EmployeeRow)
    (o : ℕ → ℕ → ℚ) (hadm : Adm o) :
    ∀ row ∈ (generate_production_batches formulations employees o).getD [],
    |((row.actual_quantity : ℚ) / (row.planned_quantity : ℚ)) * 100 -
      row.yield_percentage| < 1 / 100 := by
  intro row hrow
  simp only [generate_production_batches] at hrow
  obtain ⟨i, hi, hbody⟩ := mem_mapOpt_getD hrow
  simp only [Option.bind_eq_bind] at hbody
  cases hf : choice (formulations.filter fun f => f.status == "Active") (o 0 i) with
  | none => rw [hf] at hbody; simp at hbody
  | some f =>
    rw [hf] at hbody
    simp only [Option.some_bind] at hbody
    cases hs : choice ((employees.filter fun e => e.department == "Production").map
        (·.employee_id)) (o 8 i) with
    | none => rw [hs] at hbody; simp at hbody
    | some sup =>
      rw [hs] at hbody
      simp only [Option.some_bind] at hbody
      obtain rfl : row = _ := (Option.some.inj hbody).symm
      dsimp only
      refine lt_of_le_of_lt (abs_sub_pyRound 2 _) ?_
      norm_num

set_option maxRecDepth 8000 in
theorem c6_witness :
    |((batchRowW.actual_quantity : ℚ) / (batchRowW.planned_quantity : ℚ)) * 100 -
      batchRowW.yield_percentage| < 1 / 100 :=
  c6_yield [formulationW] [employeeProdW] oZ oZ_adm batchRowW
    (head?_mem (by with_unfolding_all rfl))

/-! ## C7 — net amount reconstructed from components within rounding -/

/-- C7: in every row of a generated `fact_sales_transactions` table the
stored `net_amount` is within 0.01 of
`total_amount - discount_amount + tax_amount`. -/
theorem c7_net_amount (items : List ItemRow) (customers : List CustomerRow)
    (employees : List EmployeeRow) (o : ℕ → ℕ → ℚ) (hadm : Adm o) :
    ∀ row ∈ (generate_sales_transactions items customers employees o).getD [],
    |(row.total_amount - row.discount_amount + row.tax_amount) - row.net_amount| <
      1 / 100 := by
  intro row hrow
  simp only [generate_sales_transactions] at hrow
  obtain ⟨i, hi, hbody⟩ := mem_mapOpt_getD hrow
  simp only [Option.bind_eq_bind] at hbody
  cases hc : choice customers (o 0 i) with
  | none => rw [hc] at hbody; simp at hbody
  | some customer =>
    rw [hc] at hbody
    simp only [Option.some_bind] at hbody
    cases hit : choice items (o 1 i) with
    | none => rw [hit] at hbody; simp at hbody
    | some item =>
      rw [hit] at hbody
      simp only [Option.some_bind] at hbody
      cases he : choice ((employees.filter fun e =>
          e.department == "Sales & Marketing").map (·.employee_id)) (o 10 i) with
      | none => rw [he] at hbody; simp at hbody
      | some emp =>
        rw [he] at hbody
        simp only [Option.some_bind] at hbody
        obtain rfl : row = _ := (Option.some.inj hbody).symm
        dsimp only
        refine lt_of_le_of_lt (abs_sub_pyRound 2 _) ?_
        norm_num

set_option maxRecDepth 8000 in
theorem c7_witness :
    |(saleRowW.total_amount - saleRowW.discount_amount + saleRowW.tax_amount) -
      saleRowW.net_amount| < 1 / 100 :=
  c7_net_amount [itemW] [customerW] [employeeSalesW] oZ oZ_adm saleRowW
    (head?_mem (by with_unfolding_all rfl))

theorem enum_snd_mem {α : Type} {l : List α} {p : ℕ × α} (h : p ∈ l.enum) :
    p.2 ∈ l := by
  obtain ⟨i, x⟩ := p
  obtain ⟨hlt, hx⟩ := List.mem_enum h
  rw [hx]
  exact List.getElem_mem hlt

theorem mem_bind_getD {α β : Type} {a : Option α} {f : α → Option (List β)} {y : β}
    (h : y ∈ (a.bind f).getD []) : ∃ x, a = some x ∧ y ∈ (f x).getD [] := by
  cases a with
  | none => simp at h
  | some x => exact ⟨x, rfl, h⟩

/-! ## C8 — Sales Issue quantities -/

/-- C8: in a generated `fact_inventory_transactions` table, every
"Sales Issue" row has a strictly negative quantity whose magnitude is
bounded by the current stock of the (positive-stock) inventory item it
references; consequently no "Sales Issue" row references a sku whose items
all have zero stock. -/
theorem c8_sales_issues (items : List ItemRow) (batches : List BatchRow)
    (employees : List EmployeeRow) (formulations : List FormulationRow)
    (o : ℕ → ℕ → ℚ) (hadm : Adm o) :
    (∀ row ∈ (generate_inventory_transactions items batches employees
        formulations o).getD [],
      row.transaction_type = "Sales Issue" →
      row.quantity < 0 ∧ ∃ item ∈ items, row.sku = item.sku ∧
        0 < item.current_stock ∧ -row.quantity ≤ item.current_stock) ∧
    (∀ s : String, (∀ item ∈ items, item.sku = s → item.current_stock = 0) →
      ∀ row ∈ (generate_inventory_transactions items batches employees
          formulations o).getD [],
      row.transaction_type = "Sales Issue" → row.sku ≠ s) := by
  have main : ∀ row ∈ (generate_inventory_transactions items batches employees
      formulations o).getD [],
      row.transaction_type = "Sales Issue" →
      row.quantity < 0 ∧ ∃ item ∈ items, row.sku = item.sku ∧
        0 < item.current_stock ∧ -row.quantity ≤ item.current_stock := by
    intro row hrow hty
    simp only [generate_inventory_transactions, Option.bind_eq_bind] at hrow
    obtain ⟨receipts, hR, hrow⟩ := mem_bind_getD hrow
    obtain ⟨issues, hI, hrow⟩ := mem_bind_getD hrow
    obtain ⟨transfers, hT, hrow⟩ := mem_bind_getD hrow
    simp only [Option.getD_some, pure] at hrow
    rcases List.mem_append.mp hrow with hmem | htrans
    · rcases List.mem_append.mp hmem with hrec | hiss
      · -- Production Receipt pass: transaction_type contradicts the hypothesis
        obtain ⟨p, hp, hfp⟩ := mapOpt_mem hR row hrec
        cases hch : choice ((employees.filter fun e =>
            e.department == "Supply Chain" || e.department == "Production").map
            (·.employee_id)) (o 0 p.1) with
        | none => rw [hch] at hfp; simp at hfp
        | some employee =>
          rw [hch] at hfp
          simp only [Option.some_bind] at hfp
          obtain rfl : row = _ := (Option.some.inj hfp).symm
          simp at hty
      · -- Sales Issue pass
        obtain ⟨p, hp, hfp⟩ := mapOpt_mem hI row hiss
        obtain ⟨j, pp⟩ := p
        have hpp : pp ∈ items.enum.flatMap (fun p =>
            if 0 < p.2.current_stock then
              (List.range (randint 1 5 (o 2 p.1)).toNat).map
                (fun k => (p.2, randint 1 (min 100 p.2.current_stock) (o 1 p.1),
                  Nat.pair p.1 k))
            else []) := enum_snd_mem hp
        rw [List.mem_flatMap] at hpp
        obtain ⟨q, hq, hmem2⟩ := hpp
        by_cases hpos : 0 < q.2.current_stock
        · rw [if_pos hpos, List.mem_map] at hmem2
          obtain ⟨k, hk, hpk⟩ := hmem2
          subst hpk
          cases hch : choice ((employees.filter fun e =>
              e.department == "Supply Chain" || e.department == "Production").map
              (·.employee_id)) (o 3 (Nat.pair q.1 k)) with
          | none => rw [hch] at hfp; simp at hfp
          | some employee =>
            rw [hch] at hfp
            simp only [Option.some_bind] at hfp
            obtain rfl : row = _ := (Option.some.inj hfp).symm
            have hbounds := randint_bounds (hadm 1 q.1)
              (le_min (by norm_num) (by omega) : (1 : ℤ) ≤ min 100 q.2.current_stock)
            have hminle : min (100 : ℤ) q.2.current_stock ≤ q.2.current_stock :=
              min_le_right _ _
            refine ⟨by dsimp only; omega, q.2, enum_snd_mem hq, rfl, hpos, ?_⟩
            dsimp only
            omega
        · rw [if_neg hpos] at hmem2
          simp at hmem2
    · -- Stock Transfer pass: transaction_type contradicts the hypothesis
      obtain ⟨p, hp, hfp⟩ := mapOpt_mem hT row htrans
      cases hch : choice items (o 8 p) with
      | none => rw [hch] at hfp; simp at hfp
      | some item =>
        rw [hch] at hfp
        simp only [Option.some_bind] at hfp
        cases hch2 : choice ((employees.filter fun e =>
            e.department == "Supply Chain" || e.department == "Production").map
            (·.employee_id)) (o 9 p) with
        | none => rw [hch2] at hfp; simp at hfp
        | some employee =>
          rw [hch2] at hfp
          simp only [Option.some_bind] at hfp
          obtain rfl : row = _ := (Option.some.inj hfp).symm
          simp at hty
  exact ⟨main, by
    intro s hs row hrow hty hcontr
    obtain ⟨-, item, hitem, hsku, hpos, -⟩ := main row hrow hty
    have := hs item hitem (by rw [← hsku, hcontr])
    omega⟩

set_option maxRecDepth 8000 in
theorem c8_witness :
    invTxRowW.quantity < 0 ∧ ∃ item ∈ [itemW], invTxRowW.sku = item.sku ∧
      0 < item.current_stock ∧ -invTxRowW.quantity ≤ item.current_stock :=
  (c8_sales_issues [itemW] [] [employeeProdW] [] oZ oZ_adm).1 invTxRowW
    (head?_mem (by with_unfolding_all rfl)) (by with_unfolding_all rfl)

/-! ## C3 — days inventory outstanding -/

/-- The days-outstanding rule actually implemented: `365/t` for positive
turnover, 365 for zero turnover with positive stock, but 0 (not 365) when
the item's current stock is not positive. -/
theorem invMetrics_spec (I S : ℚ) :
    (0 < (invMetrics I S).1 → (invMetrics I S).2 = 365 / (invMetrics I S).1) ∧
    ((invMetrics I S).1 = 0 → 0 < S → (invMetrics I S).2 = 365) ∧
    (S ≤ 0 → (invMetrics I S).1 = 0 ∧ (invMetrics I S).2 = 0) := by
  unfold invMetrics
  by_cases hS : 0 < S
  · rw [if_pos hS]
    dsimp only
    refine ⟨fun ht => ?_, fun ht _ => ?_, fun hle => absurd hS (not_lt.mpr hle)⟩
    · rw [if_pos ht]
    · rw [if_neg (by rw [ht]; exact lt_irrefl 0)]
  · rw [if_neg hS]
    exact ⟨fun h => absurd h (lt_irrefl 0), fun _ hS' => absurd hS' hS,
      fun _ => ⟨rfl, rfl⟩⟩

/-- C3 counterexample: a zero-stock item with an old transaction gets an
analytics row whose stored turnover rate and days outstanding are both 0 —
the days-outstanding is 0, not 365 as the claim states. -/
theorem c3_counterexample :
    ((generate_inventory_analytics [itemZeroW] [txTransferW] oZ).map
      (fun r => (r.stock_turnover_rate, r.days_inventory_outstanding))).head? =
      some (0, 0) ∧ (0 : ℚ) ≠ 365 :=
  ⟨by with_unfolding_all rfl, by norm_num⟩

/-- C3 (amended): every inventory-analytics row stores rounded metrics
`pyRound 2 t` and `pyRound 1 d` where `d = 365/t` when `t > 0`, `d = 365`
when `t = 0` and the item's stock is positive, and `t = d = 0` when the
item's stock is not positive. -/
theorem c3_days_outstanding (items : List ItemRow) (txs : List InvTxRow)
    (o : ℕ → ℕ → ℚ) (hadm : Adm o) :
    ∀ row ∈ generate_inventory_analytics items txs o,
    ∃ item ∈ items, row.sku = item.sku ∧ ∃ t d : ℚ,
      row.stock_turnover_rate = pyRound 2 t ∧
      row.days_inventory_outstanding = pyRound 1 d ∧
      (0 < t → d = 365 / t) ∧
      (t = 0 → 0 < item.current_stock → d = 365) ∧
      (item.current_stock ≤ 0 → t = 0 ∧ d = 0) := by
  intro row hrow
  simp only [generate_inventory_analytics] at hrow
  rw [List.mem_map] at hrow
  obtain ⟨q, hq, hrow_eq⟩ := hrow
  obtain ⟨i, qq⟩ := q
  have hqq := enum_snd_mem hq
  rw [List.mem_flatMap] at hqq
  obtain ⟨p, hp, hmem⟩ := hqq
  have hitem : p.2 ∈ items := enum_snd_mem hp
  rw [List.mem_filterMap] at hmem
  obtain ⟨m0, hm0, hg⟩ := hmem
  by_cases he : (txs.filter (fun t =>
      t.sku == p.2.sku && decide (t.transaction_date ≤ dateEnc 2024 ((m0 + 1 : ℕ) : ℤ) 15))).isEmpty
  · rw [if_pos he] at hg
    exact Option.noConfusion hg
  · rw [if_neg he] at hg
    obtain rfl : qq = _ := (Option.some.inj hg).symm
    obtain rfl : row = _ := hrow_eq.symm
    refine ⟨p.2, hitem, ?_⟩
    dsimp only
    refine ⟨rfl, _, _, rfl, rfl, (invMetrics_spec _ _).1,
      fun ht hstock => (invMetrics_spec _ _).2.1 ht (by exact_mod_cast hstock),
      fun hle => (invMetrics_spec _ _).2.2 (by exact_mod_cast hle)⟩

theorem c3_witness :
    ∃ item ∈ [itemW], invAnRowW.sku = item.sku ∧ ∃ t d : ℚ,
      invAnRowW.stock_turnover_rate = pyRound 2 t ∧
      invAnRowW.days_inventory_outstanding = pyRound 1 d ∧
      (0 < t → d = 365 / t) ∧
      (t = 0 → 0 < item.current_stock → d = 365) ∧
      (item.current_stock ≤ 0 → t = 0 ∧ d = 0) :=
  c3_days_outstanding [itemW] [txSaleIssueW] oZ oZ_adm invAnRowW
    (head?_mem (by with_unfolding_all rfl))

/-! ## C2 — determinism of `generate_demo_data` -/

/-- C2: `generate_demo_data` reseeds the global RNG state from the seed at
entry, so its result does not depend on the ambient pre-call RNG state:
two calls with the same seed return identical tables and reports. -/
theorem c2_determinism (seed : ℤ) (g₁ g₂ : ℕ → ℚ) :
    generate_demo_data seed g₁ = generate_demo_data seed g₂ := rfl

/-! ## C1 — website-traffic customer ids do not resolve in dim_customers -/

/-- Every customer row of any run carries one of the 62 fixed ids
`B2B-0001` … `B2B-0012`, `B2C-0013` … `B2C-0062`. -/
theorem customers_id_mem (oC : ℕ → ℕ → ℚ) :
    ∀ c ∈ generate_customers_data oC, c.customer_id ∈ customersIdList := by
  intro c hc
  simp only [generate_customers_data] at hc
  rcases List.mem_append.mp hc with hb | hb
  · rw [List.mem_map] at hb
    obtain ⟨p, hp, hpc⟩ := hb
    obtain rfl : c = _ := hpc.symm
    obtain ⟨i, nm⟩ := p
    obtain ⟨hlt, -⟩ := List.mem_enum hp
    dsimp only
    apply List.mem_append_left
    rw [List.mem_map]
    exact ⟨i, List.mem_range.mpr (by simpa [b2b_names] using hlt), rfl⟩
  · rw [List.mem_map] at hb
    obtain ⟨i, hi, hic⟩ := hb
    obtain rfl : c = _ := hic.symm
    dsimp only
    apply List.mem_append_right
    rw [List.mem_map]
    exact ⟨i, hi, rfl⟩

/-- None of the ids `B2C-1000` … `B2C-1050` drawn for converted traffic
rows occurs among the 62 customer ids, and none is empty. -/
theorem traffic_ids_not_customers : ∀ m : ℕ, m < 51 →
    ("B2C-" ++ pad 4 (1000 + (m : ℤ))) ∉ customersIdList ∧
    ("B2C-" ++ pad 4 (1000 + (m : ℤ))) ≠ "" := by
  with_unfolding_all decide

/-- C1: the generator stamps converted website-traffic rows with
`customer_id` drawn from `B2C-1000` … `B2C-1050`, while `dim_customers`
only ever contains `B2B-0001` … `B2B-0012` and `B2C-0013` … `B2C-0062`:
every converted traffic row has a non-empty `customer_id` that matches no
customer of the same run. -/
theorem c1_website_customer_fk (oW oC : ℕ → ℕ → ℚ) (hW : Adm oW) (hC : Adm oC) :
    ∀ row ∈ generate_website_traffic oW, row.converted = true →
      row.customer_id ≠ "" ∧
      ∀ c ∈ generate_customers_data oC, c.customer_id ≠ row.customer_id := by
  intro row hrow hconv
  simp only [generate_website_traffic] at hrow
  rw [List.mem_flatMap] at hrow
  obtain ⟨p, hp, hrow⟩ := hrow
  rw [List.mem_map] at hrow
  obtain ⟨v, hv, hrv⟩ := hrow
  obtain rfl : row = _ := hrv.symm
  dsimp only at hconv ⊢
  rw [hconv, if_pos rfl]
  set n : ℤ := randint 1000 1050 (oW 7 (Nat.pair (Nat.pair p.2.1 p.2.2) v)) with hn
  obtain ⟨hlo, hhi⟩ := randint_bounds (hW 7 (Nat.pair (Nat.pair p.2.1 p.2.2) v))
    (by norm_num : (1000 : ℤ) ≤ 1050)
  rw [← hn] at hlo hhi
  have hm : (n - 1000).toNat < 51 := by omega
  have hncast : (1000 + ((n - 1000).toNat : ℤ)) = n := by omega
  obtain ⟨hnotmem, hne⟩ := traffic_ids_not_customers (n - 1000).toNat hm
  rw [hncast] at hnotmem hne
  refine ⟨hne, ?_⟩
  intro c hc hceq
  exact hnotmem (hceq ▸ customers_id_mem oC c hc)

set_option maxRecDepth 8000 in
theorem c1_witness :
    trafficRowW.customer_id ≠ "" ∧
    customerRowW.customer_id ≠ trafficRowW.customer_id := by
  have h := c1_website_customer_fk oZ oZ oZ_adm oZ_adm trafficRowW
    (head?_mem (by with_unfolding_all rfl)) (by with_unfolding_all rfl)
  exact ⟨h.1, h.2 customerRowW (head?_mem (by with_unfolding_all rfl))⟩

/-! ## C10 — validation of generated tables -/

theorem applyCoercions_empty : ∀ schema : List (String × SType),
    applyCoercions schema ⟨[]⟩ = (⟨[]⟩, []) := by
  intro schema
  induction schema with
  | nil => rfl
  | cons ct rest ih => rw [applyCoercions]; exact ih

theorem mapOpt_isSome {α β : Type} {f : α → Option β} : ∀ {xs : List α},
    (∀ x ∈ xs, (f x).isSome) → (mapOpt f xs).isSome := by
  intro xs
  induction xs with
  | nil => intro _; rfl
  | cons x xs ih =>
    intro h
    have hx := h x (List.mem_cons_self _ _)
    cases hfx : f x with
    | none => rw [hfx] at hx; simp at hx
    | some y =>
      have hrest := ih (fun z hz => h z (List.mem_cons_of_mem _ hz))
      cases hxs : mapOpt f xs with
      | none => rw [hxs] at hrest; simp at hrest
      | some ys => simp [mapOpt, hfx, hxs]

theorem lookup_some_of_mem_keys {β : Type} : ∀ {r : List (String × β)} {c : String},
    c ∈ r.map Prod.fst → ∃ v, r.lookup c = some v := by
  intro r
  induction r with
  | nil => intro c hc; simp at hc
  | cons kv rest ih =>
    intro c hc
    rw [List.map_cons, List.mem_cons] at hc
    cases hbe : c == kv.1 with
    | true => exact ⟨kv.2, by rw [List.lookup, hbe]⟩
    | false =>
      have hmem : c ∈ rest.map Prod.fst := by
        rcases hc with h1 | h2
        · rw [h1, beq_self_eq_true] at hbe
          exact Bool.noConfusion hbe
        · exact h2
      obtain ⟨v, hv⟩ := ih hmem
      exact ⟨v, by rw [List.lookup, hbe]; exact hv⟩

/-- If every row has exactly the schema's columns and every cell coerces,
validation of the (non-empty) assembled DataFrame reports `ok = true`. -/
theorem validate_ok_of_cells (name : String) (schema : List (String × SType))
    (h : SCHEMAS.lookup name = some schema)
    (rows : List (List (String × Value))) (hne : rows ≠ [])
    (hkeys : ∀ r ∈ rows, r.map Prod.fst = schema.map Prod.fst)
    (hco : ∀ r ∈ rows, ∀ kv ∈ r, ∀ ty, (kv.1, ty) ∈ schema →
      (coerceCell ty kv.2).isSome) :
    (validate_table name (dfOfRows rows)).2.ok = true := by
  have hnd : (schema.map Prod.fst).Nodup := schemas_keys_nodup _ (lookup_mem h)
  obtain ⟨r0, rest, rfl⟩ : ∃ r0 rest, rows = r0 :: rest := by
    cases rows with
    | nil => exact absurd rfl hne
    | cons a l => exact ⟨a, l, rfl⟩
  have hr0keys : r0.map Prod.fst = schema.map Prod.fst :=
    hkeys r0 (List.mem_cons_self _ _)
  have hdfkeys : (dfOfRows (r0 :: rest)).cols.map Prod.fst = schema.map Prod.fst := by
    show (r0.map (fun kv => (kv.1, (r0 :: rest).map (fun row =>
      (row.lookup kv.1).getD Value.vNull)))).map Prod.fst = _
    rw [List.map_map]
    exact hr0keys
  have hmiss : missingCols schema (dfOfRows (r0 :: rest)) = [] := by
    rw [missingCols, List.filter_eq_nil]
    intro c hcmem
    have hcin : c ∈ (dfOfRows (r0 :: rest)).cols.map Prod.fst := by
      rw [hdfkeys]; exact hcmem
    obtain ⟨p, hpmem, hpc⟩ := List.mem_map.mp hcin
    have hany : (dfOfRows (r0 :: rest)).cols.any (fun q => q.1 == c) = true :=
      List.any_eq_true.mpr ⟨p, hpmem, beq_iff_eq.mpr hpc⟩
    simp [hany]
  have hcoerce : ∀ ct ∈ schema, ∀ cells ∈ getCol (dfOfRows (r0 :: rest)) ct.1,
      (coerceColumn ct.2 cells).isSome := by
    intro ct hct cells hcells
    rw [Option.mem_def] at hcells
    unfold getCol at hcells
    cases hfind : (dfOfRows (r0 :: rest)).cols.find? (fun p => p.1 == ct.1) with
    | none => rw [hfind] at hcells; simp at hcells
    | some entry =>
      rw [hfind] at hcells
      have hc2 : entry.2 = cells := by
        simpa using hcells
      have hpred := List.find?_some hfind
      have hentry : entry ∈ (dfOfRows (r0 :: rest)).cols :=
        List.mem_of_find?_eq_some hfind
      obtain ⟨kv0, hkv0, hgkv⟩ := List.mem_map.mp hentry
      have hk : kv0.1 = ct.1 := by
        have h1 : entry.1 = kv0.1 := by rw [← hgkv]
        rw [← h1]; exact eq_of_beq hpred
      have hcellseq : cells = (r0 :: rest).map (fun row =>
          (row.lookup ct.1).getD Value.vNull) := by
        rw [← hc2, ← hgkv]
        dsimp only
        rw [hk]
      rw [coerceColumn]
      apply mapOpt_isSome
      intro cell hcellmem
      rw [hcellseq] at hcellmem
      obtain ⟨rowX, hrowX, hcellX⟩ := List.mem_map.mp hcellmem
      have hkeysX := hkeys rowX hrowX
      have hmemk : ct.1 ∈ rowX.map Prod.fst := by
        rw [hkeysX]; exact List.mem_map_of_mem Prod.fst hct
      obtain ⟨v, hv⟩ := lookup_some_of_mem_keys hmemk
      have hcv : cell = v := by rw [← hcellX, hv]; rfl
      rw [hcv]
      exact hco rowX hrowX (ct.1, v) (lookup_mem hv) ct.2 (by simpa using hct)
  simp [validate_table, h, hmiss,
    applyCoercions_errors_nil schema hnd _ hcoerce]

/-- Validation of a table assembled from well-shaped rows: empty tables
have row count 0, non-empty ones validate with `ok = true`. -/
theorem table_ok_generic {R : Type} (toCellsF : R → List (String × Value))
    (name : String) (schema : List (String × SType))
    (h : SCHEMAS.lookup name = some schema)
    (hkeys : ∀ r : R, (toCellsF r).map Prod.fst = schema.map Prod.fst)
    (hco : ∀ (r : R), ∀ kv ∈ toCellsF r, ∀ ty, (kv.1, ty) ∈ schema →
      (coerceCell ty kv.2).isSome)
    (rows : List R)
    (hrc : 1 ≤ (validate_table name
      (dfOfRows (rows.map toCellsF))).2.rowCount.getD 0) :
    (validate_table name (dfOfRows (rows.map toCellsF))).2.ok = true := by
  cases rows with
  | nil =>
    exfalso
    have hz : (validate_table name
        (dfOfRows (([] : List R).map toCellsF))).2.rowCount = some 0 := by
      simp [validate_table, h, dfOfRows, applyCoercions_empty, numRows]
    rw [hz] at hrc
    simp at hrc
  | cons r rest =>
    apply validate_ok_of_cells name schema h _ (by simp)
    · intro rr hrr
      obtain ⟨x, hx, rfl⟩ := List.mem_map.mp hrr
      exact hkeys x
    · intro rr hrr kv hkv ty hty
      obtain ⟨x, hx, rfl⟩ := List.mem_map.mp hrr
      exact hco x kv hkv ty hty

theorem tenant_cells_coerce : ∀ (r : TenantRow), ∀ kv ∈ r.toCells, ∀ ty,
    (kv.1, ty) ∈ (SCHEMAS.lookup "dim_tenants").getD [] → (coerceCell ty kv.2).isSome := by
  intro r kv hkv ty hty
  simp only [TenantRow.toCells, List.mem_cons, List.not_mem_nil, or_false] at hkv
  rcases hkv with rfl|rfl|rfl|rfl|rfl|rfl|rfl|rfl|rfl|rfl|rfl|rfl|rfl <;>
    cases ty <;>
    first
      | rfl
      | (dsimp only at hty; exfalso; revert hty; with_unfolding_all decide)

theorem employee_cells_coerce : ∀ (r : EmployeeRow), ∀ kv ∈ r.toCells, ∀ ty,
    (kv.1, ty) ∈ (SCHEMAS.lookup "dim_employees").getD [] → (coerceCell ty kv.2).isSome := by
  intro r kv hkv ty hty
  simp only [EmployeeRow.toCells, List.mem_cons, List.not_mem_nil, or_false] at hkv
  rcases hkv with rfl|rfl|rfl|rfl|rfl|rfl|rfl|rfl|rfl|rfl|rfl|rfl|rfl <;>
    cases ty <;>
    first
      | rfl
      | (dsimp only at hty; exfalso; revert hty; with_unfolding_all decide)

theorem formulation_cells_coerce : ∀ (r : FormulationRow), ∀ kv ∈ r.toCells, ∀ ty,
    (kv.1, ty) ∈ (SCHEMAS.lookup "dim_formulations").getD [] → (coerceCell ty kv.2).isSome := by
  intro r kv hkv ty hty
  simp only [FormulationRow.toCells, List.mem_cons, List.not_mem_nil, or_false] at hkv
  rcases hkv with rfl|rfl|rfl|rfl|rfl|rfl|rfl|rfl|rfl|rfl <;>
    cases ty <;>
    first
      | rfl
      | (dsimp only at hty; exfalso; revert hty; with_unfolding_all decide)

theorem material_cells_coerce : ∀ (r : MaterialRow), ∀ kv ∈ r.toCells, ∀ ty,
    (kv.1, ty) ∈ (SCHEMAS.lookup "dim_raw_materials").getD [] → (coerceCell ty kv.2).isSome := by
  intro r kv hkv ty hty
  simp only [MaterialRow.toCells, List.mem_cons, List.not_mem_nil, or_false] at hkv
  rcases hkv with rfl|rfl|rfl|rfl|rfl|rfl|rfl|rfl|rfl|rfl <;>
    cases ty <;>
    first
      | rfl
      | (dsimp only at hty; exfalso; revert hty; with_unfolding_all decide)

theorem customer_cells_coerce : ∀ (r : CustomerRow), ∀ kv ∈ r.toCells, ∀ ty,
    (kv.1, ty) ∈ (SCHEMAS.lookup "dim_customers").getD [] → (coerceCell ty kv.2).isSome := by
  intro r kv hkv ty hty
  simp only [CustomerRow.toCells, List.mem_cons, List.not_mem_nil, or_false] at hkv
  rcases hkv with rfl|rfl|rfl|rfl|rfl|rfl|rfl|rfl|rfl|rfl|rfl|rfl <;>
    cases ty <;>
    first
      | rfl
      | (dsimp only at hty; exfalso; revert hty; with_unfolding_all decide)

theorem batch_cells_coerce : ∀ (r : BatchRow), ∀ kv ∈ r.toCells, ∀ ty,
    (kv.1, ty) ∈ (SCHEMAS.lookup "fact_production_batches").getD [] → (coerceCell ty kv.2).isSome := by
  intro r kv hkv ty hty
  simp only [BatchRow.toCells, List.mem_cons, List.not_mem_nil, or_false] at hkv
  rcases hkv with rfl|rfl|rfl|rfl|rfl|rfl|rfl|rfl|rfl|rfl|rfl|rfl <;>
    cases ty <;>
    first
      | rfl
      | (dsimp only at hty; exfalso; revert hty; with_unfolding_all decide)

theorem item_cells_coerce : ∀ (r : ItemRow), ∀ kv ∈ r.toCells, ∀ ty,
    (kv.1, ty) ∈ (SCHEMAS.lookup "dim_inventory_items").getD [] → (coerceCell ty kv.2).isSome := by
  intro r kv hkv ty hty
  simp only [ItemRow.toCells, List.mem_cons, List.not_mem_nil, or_false] at hkv
  rcases hkv with rfl|rfl|rfl|rfl|rfl|rfl|rfl|rfl|rfl|rfl|rfl|rfl <;>
    cases ty <;>
    first
      | rfl
      | (dsimp only at hty; exfalso; revert hty; with_unfolding_all decide)

theorem invTx_cells_coerce : ∀ (r : InvTxRow), ∀ kv ∈ r.toCells, ∀ ty,
    (kv.1, ty) ∈ (SCHEMAS.lookup "fact_inventory_transactions").getD [] → (coerceCell ty kv.2).isSome := by
  intro r kv hkv ty hty
  simp only [InvTxRow.toCells, List.mem_cons, List.not_mem_nil, or_false] at hkv
  rcases hkv with rfl|rfl|rfl|rfl|rfl|rfl|rfl|rfl|rfl|rfl|rfl <;>
    cases ty <;>
    first
      | rfl
      | (dsimp only at hty; exfalso; revert hty; with_unfolding_all decide)

theorem sale_cells_coerce : ∀ (r : SaleRow), ∀ kv ∈ r.toCells, ∀ ty,
    (kv.1, ty) ∈ (SCHEMAS.lookup "fact_sales_transactions").getD [] → (coerceCell ty kv.2).isSome := by
  intro r kv hkv ty hty
  simp only [SaleRow.toCells, List.mem_cons, List.not_mem_nil, or_false] at hkv
  rcases hkv with rfl|rfl|rfl|rfl|rfl|rfl|rfl|rfl|rfl|rfl|rfl|rfl|rfl|rfl <;>
    cases ty <;>
    first
      | rfl
      | (dsimp only at hty; exfalso; revert hty; with_unfolding_all decide)

theorem order_cells_coerce : ∀ (r : OrderRow), ∀ kv ∈ r.toCells, ∀ ty,
    (kv.1, ty) ∈ (SCHEMAS.lookup "fact_ecommerce_orders").getD [] → (coerceCell ty kv.2).isSome := by
  intro r kv hkv ty hty
  simp only [OrderRow.toCells, List.mem_cons, List.not_mem_nil, or_false] at hkv
  rcases hkv with rfl|rfl|rfl|rfl|rfl|rfl|rfl|rfl|rfl|rfl|rfl|rfl|rfl <;>
    cases ty <;>
    first
      | rfl
      | (dsimp only at hty; exfalso; revert hty; with_unfolding_all decide)

theorem att_cells_coerce : ∀ (r : AttRow), ∀ kv ∈ r.toCells, ∀ ty,
    (kv.1, ty) ∈ (SCHEMAS.lookup "fact_attendance").getD [] → (coerceCell ty kv.2).isSome := by
  intro r kv hkv ty hty
  simp only [AttRow.toCells, List.mem_cons, List.not_mem_nil, or_false] at hkv
  rcases hkv with rfl|rfl|rfl|rfl|rfl|rfl|rfl|rfl|rfl|rfl|rfl <;>
    cases ty <;>
    first
      | rfl
      | (dsimp only at hty; exfalso; revert hty; with_unfolding_all decide)

theorem account_cells_coerce : ∀ (r : AccountRow), ∀ kv ∈ r.toCells, ∀ ty,
    (kv.1, ty) ∈ (SCHEMAS.lookup "dim_accounts").getD [] → (coerceCell ty kv.2).isSome := by
  intro r kv hkv ty hty
  simp only [AccountRow.toCells, List.mem_cons, List.not_mem_nil, or_false] at hkv
  rcases hkv with rfl|rfl|rfl|rfl|rfl|rfl|rfl|rfl|rfl <;>
    cases ty <;>
    first
      | rfl
      | (dsimp only at hty; exfalso; revert hty; with_unfolding_all decide)

theorem finTx_cells_coerce : ∀ (r : FinTxRow), ∀ kv ∈ r.toCells, ∀ ty,
    (kv.1, ty) ∈ (SCHEMAS.lookup "fact_financial_transactions").getD [] → (coerceCell ty kv.2).isSome := by
  intro r kv hkv ty hty
  simp only [FinTxRow.toCells, List.mem_cons, List.not_mem_nil, or_false] at hkv
  rcases hkv with rfl|rfl|rfl|rfl|rfl|rfl|rfl|rfl|rfl|rfl|rfl|rfl <;>
    cases ty <;>
    first
      | rfl
      | (dsimp only at hty; exfalso; revert hty; with_unfolding_all decide)

theorem traffic_cells_coerce : ∀ (r : TrafficRow), ∀ kv ∈ r.toCells, ∀ ty,
    (kv.1, ty) ∈ (SCHEMAS.lookup "fact_website_traffic").getD [] → (coerceCell ty kv.2).isSome := by
  intro r kv hkv ty hty
  simp only [TrafficRow.toCells, List.mem_cons, List.not_mem_nil, or_false] at hkv
  rcases hkv with rfl|rfl|rfl|rfl|rfl|rfl|rfl|rfl|rfl|rfl <;>
    cases ty <;>
    first
      | rfl
      | (dsimp only at hty; exfalso; revert hty; with_unfolding_all decide)

theorem pAnalytics_cells_coerce : ∀ (r : PAnalyticsRow), ∀ kv ∈ r.toCells, ∀ ty,
    (kv.1, ty) ∈ (SCHEMAS.lookup "fact_production_analytics").getD [] → (coerceCell ty kv.2).isSome := by
  intro r kv hkv ty hty
  simp only [PAnalyticsRow.toCells, List.mem_cons, List.not_mem_nil, or_false] at hkv
  rcases hkv with rfl|rfl|rfl|rfl|rfl|rfl|rfl|rfl|rfl|rfl|rfl|rfl <;>
    cases ty <;>
    first
      | rfl
      | (dsimp only at hty; exfalso; revert hty; with_unfolding_all decide)

theorem iAnalytics_cells_coerce : ∀ (r : IAnalyticsRow), ∀ kv ∈ r.toCells, ∀ ty,
    (kv.1, ty) ∈ (SCHEMAS.lookup "fact_inventory_analytics").getD [] → (coerceCell ty kv.2).isSome := by
  intro r kv hkv ty hty
  simp only [IAnalyticsRow.toCells, List.mem_cons, List.not_mem_nil, or_false] at hkv
  rcases hkv with rfl|rfl|rfl|rfl|rfl|rfl|rfl|rfl|rfl|rfl|rfl|rfl <;>
    cases ty <;>
    first
      | rfl
      | (dsimp only at hty; exfalso; revert hty; with_unfolding_all decide)

theorem audit_cells_coerce : ∀ (r : AuditRow), ∀ kv ∈ r.toCells, ∀ ty,
    (kv.1, ty) ∈ (SCHEMAS.lookup "fact_audit_logs").getD [] → (coerceCell ty kv.2).isSome := by
  intro r kv hkv ty hty
  simp only [AuditRow.toCells, List.mem_cons, List.not_mem_nil, or_false] at hkv
  rcases hkv with rfl|rfl|rfl|rfl|rfl|rfl|rfl|rfl|rfl|rfl|rfl|rfl <;>
    cases ty <;>
    first
      | rfl
      | (dsimp only at hty; exfalso; revert hty; with_unfolding_all decide)

/-- C10 (amended): every one of the 17 table kinds the pipeline generates
— rows with exactly the column set and cell types its generator emits —
passes validation with `ok = true` whenever the table records at least one
row; an empty table instead fails with missing-column errors, which is how
the claim as stated can be violated. -/
theorem c10_generated_tables_validate :
    (∀ rows : List TenantRow,
      1 ≤ (validate_table "dim_tenants"
        (dfOfRows (rows.map TenantRow.toCells))).2.rowCount.getD 0 →
      (validate_table "dim_tenants"
        (dfOfRows (rows.map TenantRow.toCells))).2.ok = true) ∧
    (∀ rows : List EmployeeRow,
      1 ≤ (validate_table "dim_employees"
        (dfOfRows (rows.map EmployeeRow.toCells))).2.rowCount.getD 0 →
      (validate_table "dim_employees"
        (dfOfRows (rows.map EmployeeRow.toCells))).2.ok = true) ∧
    (∀ rows : List FormulationRow,
      1 ≤ (validate_table "dim_formulations"
        (dfOfRows (rows.map FormulationRow.toCells))).2.rowCount.getD 0 →
      (validate_table "dim_formulations"
        (dfOfRows (rows.map FormulationRow.toCells))).2.ok = true) ∧
    (∀ rows : List MaterialRow,
      1 ≤ (validate_table "dim_raw_materials"
        (dfOfRows (rows.map MaterialRow.toCells))).2.rowCount.getD 0 →
      (validate_table "dim_raw_materials"
        (dfOfRows (rows.map MaterialRow.toCells))).2.ok = true) ∧
    (∀ rows : List CustomerRow,
      1 ≤ (validate_table "dim_customers"
        (dfOfRows (rows.map CustomerRow.toCells))).2.rowCount.getD 0 →
      (validate_table "dim_customers"
        (dfOfRows (rows.map CustomerRow.toCells))).2.ok = true) ∧
    (∀ rows : List BatchRow,
      1 ≤ (validate_table "fact_production_batches"
        (dfOfRows (rows.map BatchRow.toCells))).2.rowCount.getD 0 →
      (validate_table "fact_production_batches"
        (dfOfRows (rows.map BatchRow.toCells))).2.ok = true) ∧
    (∀ rows : List ItemRow,
      1 ≤ (validate_table "dim_inventory_items"
        (dfOfRows (rows.map ItemRow.toCells))).2.rowCount.getD 0 →
      (validate_table "dim_inventory_items"
        (dfOfRows (rows.map ItemRow.toCells))).2.ok = true) ∧
    (∀ rows : List InvTxRow,
      1 ≤ (validate_table "fact_inventory_transactions"
        (dfOfRows (rows.map InvTxRow.toCells))).2.rowCount.getD 0 →
      (validate_table "fact_inventory_transactions"
        (dfOfRows (rows.map InvTxRow.toCells))).2.ok = true) ∧
    (∀ rows : List SaleRow,
      1 ≤ (validate_table "fact_sales_transactions"
        (dfOfRows (rows.map SaleRow.toCells))).2.rowCount.getD 0 →
      (validate_table "fact_sales_transactions"
        (dfOfRows (rows.map SaleRow.toCells))).2.ok = true) ∧
    (∀ rows : List OrderRow,
      1 ≤ (validate_table "fact_ecommerce_orders"
        (dfOfRows (rows.map OrderRow.toCells))).2.rowCount.getD 0 →
      (validate_table "fact_ecommerce_orders"
        (dfOfRows (rows.map OrderRow.toCells))).2.ok = true) ∧
    (∀ rows : List AttRow,
      1 ≤ (validate_table "fact_attendance"
        (dfOfRows (rows.map AttRow.toCells))).2.rowCount.getD 0 →
      (validate_table "fact_attendance"
        (dfOfRows (rows.map AttRow.toCells))).2.ok = true) ∧
    (∀ rows : List AccountRow,
      1 ≤ (validate_table "dim_accounts"
        (dfOfRows (rows.map AccountRow.toCells))).2.rowCount.getD 0 →
      (validate_table "dim_accounts"
        (dfOfRows (rows.map AccountRow.toCells))).2.ok = true) ∧
    (∀ rows : List FinTxRow,
      1 ≤ (validate_table "fact_financial_transactions"
        (dfOfRows (rows.map FinTxRow.toCells))).2.rowCount.getD 0 →
      (validate_table "fact_financial_transactions"
        (dfOfRows (rows.map FinTxRow.toCells))).2.ok = true) ∧
    (∀ rows : List TrafficRow,
      1 ≤ (validate_table "fact_website_traffic"
        (dfOfRows (rows.map TrafficRow.toCells))).2.rowCount.getD 0 →
      (validate_table "fact_website_traffic"
        (dfOfRows (rows.map TrafficRow.toCells))).2.ok = true) ∧
    (∀ rows : List PAnalyticsRow,
      1 ≤ (validate_table "fact_production_analytics"
        (dfOfRows (rows.map PAnalyticsRow.toCells))).2.rowCount.getD 0 →
      (validate_table "fact_production_analytics"
        (dfOfRows (rows.map PAnalyticsRow.toCells))).2.ok = true) ∧
    (∀ rows : List IAnalyticsRow,
      1 ≤ (validate_table "fact_inventory_analytics"
        (dfOfRows (rows.map IAnalyticsRow.toCells))).2.rowCount.getD 0 →
      (validate_table "fact_inventory_analytics"
        (dfOfRows (rows.map IAnalyticsRow.toCells))).2.ok = true) ∧
    (∀ rows : List AuditRow,
      1 ≤ (validate_table "fact_audit_logs"
        (dfOfRows (rows.map AuditRow.toCells))).2.rowCount.getD 0 →
      (validate_table "fact_audit_logs"
        (dfOfRows (rows.map AuditRow.toCells))).2.ok = true) :=
  ⟨    fun rows hrc => table_ok_generic TenantRow.toCells "dim_tenants" _ rfl
      (fun r => rfl) tenant_cells_coerce rows hrc,
    fun rows hrc => table_ok_generic EmployeeRow.toCells "dim_employees" _ rfl
      (fun r => rfl) employee_cells_coerce rows hrc,
    fun rows hrc => table_ok_generic FormulationRow.toCells "dim_formulations" _ rfl
      (fun r => rfl) formulation_cells_coerce rows hrc,
    fun rows hrc => table_ok_generic MaterialRow.toCells "dim_raw_materials" _ rfl
      (fun r => rfl) material_cells_coerce rows hrc,
    fun rows hrc => table_ok_generic CustomerRow.toCells "dim_customers" _ rfl
      (fun r => rfl) customer_cells_coerce rows hrc,
    fun rows hrc => table_ok_generic BatchRow.toCells "fact_production_batches" _ rfl
      (fun r => rfl) batch_cells_coerce rows hrc,
    fun rows hrc => table_ok_generic ItemRow.toCells "dim_inventory_items" _ rfl
      (fun r => rfl) item_cells_coerce rows hrc,
    fun rows hrc => table_ok_generic InvTxRow.toCells "fact_inventory_transactions" _ rfl
      (fun r => rfl) invTx_cells_coerce rows hrc,
    fun rows hrc => table_ok_generic SaleRow.toCells "fact_sales_transactions" _ rfl
      (fun r => rfl) sale_cells_coerce rows hrc,
    fun rows hrc => table_ok_generic OrderRow.toCells "fact_ecommerce_orders" _ rfl
      (fun r => rfl) order_cells_coerce rows hrc,
    fun rows hrc => table_ok_generic AttRow.toCells "fact_attendance" _ rfl
      (fun r => rfl) att_cells_coerce rows hrc,
    fun rows hrc => table_ok_generic AccountRow.toCells "dim_accounts" _ rfl
      (fun r => rfl) account_cells_coerce rows hrc,
    fun rows hrc => table_ok_generic FinTxRow.toCells "fact_financial_transactions" _ rfl
      (fun r => rfl) finTx_cells_coerce rows hrc,
    fun rows hrc => table_ok_generic TrafficRow.toCells "fact_website_traffic" _ rfl
      (fun r => rfl) traffic_cells_coerce rows hrc,
    fun rows hrc => table_ok_generic PAnalyticsRow.toCells "fact_production_analytics" _ rfl
      (fun r => rfl) pAnalytics_cells_coerce rows hrc,
    fun rows hrc => table_ok_generic IAnalyticsRow.toCells "fact_inventory_analytics" _ rfl
      (fun r => rfl) iAnalytics_cells_coerce rows hrc,
    fun rows hrc => table_ok_generic AuditRow.toCells "fact_audit_logs" _ rfl
      (fun r => rfl) audit_cells_coerce rows hrc⟩

set_option maxRecDepth 8000 in
/-- C10 counterexample: with admissible draws that make every batch status
"In Progress" (site 5 draw 0.7), the run's `fact_production_analytics`
table is empty and its validation report has `ok = false`. -/
theorem c10_counterexample :
    (validate_table "fact_production_analytics"
      (dfOfRows ((generate_production_analytics batchesCexW oZ).map
        PAnalyticsRow.toCells))).2.ok = false ∧ Adm oBatchCex := by
  constructor
  · with_unfolding_all rfl
  · intro i j
    by_cases hi : i = 5 <;> simp [unit01, oBatchCex, hi] <;> norm_num

set_option maxRecDepth 8000 in
theorem c10_witness :
    (validate_table "dim_tenants"
      (dfOfRows ([(default : TenantRow)].map TenantRow.toCells))).2.ok = true ∧
    (validate_table "dim_employees"
      (dfOfRows ([(default : EmployeeRow)].map EmployeeRow.toCells))).2.ok = true ∧
    (validate_table "dim_formulations"
      (dfOfRows ([(default : FormulationRow)].map FormulationRow.toCells))).2.ok = true ∧
    (validate_table "dim_raw_materials"
      (dfOfRows ([(default : MaterialRow)].map MaterialRow.toCells))).2.ok = true ∧
    (validate_table "dim_customers"
      (dfOfRows ([(default : CustomerRow)].map CustomerRow.toCells))).2.ok = true ∧
    (validate_table "fact_production_batches"
      (dfOfRows ([(default : BatchRow)].map BatchRow.toCells))).2.ok = true ∧
    (validate_table "dim_inventory_items"
      (dfOfRows ([(default : ItemRow)].map ItemRow.toCells))).2.ok = true ∧
    (validate_table "fact_inventory_transactions"
      (dfOfRows ([(default : InvTxRow)].map InvTxRow.toCells))).2.ok = true ∧
    (validate_table "fact_sales_transactions"
      (dfOfRows ([(default : SaleRow)].map SaleRow.toCells))).2.ok = true ∧
    (validate_table "fact_ecommerce_orders"
      (dfOfRows ([(default : OrderRow)].map OrderRow.toCells))).2.ok = true ∧
    (validate_table "fact_attendance"
      (dfOfRows ([(default : AttRow)].map AttRow.toCells))).2.ok = true ∧
    (validate_table "dim_accounts"
      (dfOfRows ([(default : AccountRow)].map AccountRow.toCells))).2.ok = true ∧
    (validate_table "fact_financial_transactions"
      (dfOfRows ([(default : FinTxRow)].map FinTxRow.toCells))).2.ok = true ∧
    (validate_table "fact_website_traffic"
      (dfOfRows ([(default : TrafficRow)].map TrafficRow.toCells))).2.ok = true ∧
    (validate_table "fact_production_analytics"
      (dfOfRows ([(default : PAnalyticsRow)].map PAnalyticsRow.toCells))).2.ok = true ∧
    (validate_table "fact_inventory_analytics"
      (dfOfRows ([(default : IAnalyticsRow)].map IAnalyticsRow.toCells))).2.ok = true ∧
    (validate_table "fact_audit_logs"
      (dfOfRows ([(default : AuditRow)].map AuditRow.toCells))).2.ok = true :=
  ⟨    c10_generated_tables_validate.1 [default]
      (by with_unfolding_all decide),
    c10_generated_tables_validate.2.1 [default]
      (by with_unfolding_all decide),
    c10_generated_tables_validate.2.2.1 [default]
      (by with_unfolding_all decide),
    c10_generated_tables_validate.2.2.2.1 [default]
      (by with_unfolding_all decide),
    c10_generated_tables_validate.2.2.2.2.1 [default]
      (by with_unfolding_all decide),
    c10_generated_tables_validate.2.2.2.2.2.1 [default]
      (by with_unfolding_all decide),
    c10_generated_tables_validate.2.2.2.2.2.2.1 [default]
      (by with_unfolding_all decide),
    c10_generated_tables_validate.2.2.2.2.2.2.2.1 [default]
      (by with_unfolding_all decide),
    c10_generated_tables_validate.2.2.2.2.2.2.2.2.1 [default]
      (by with_unfolding_all decide),
    c10_generated_tables_validate.2.2.2.2.2.2.2.2.2.1 [default]
      (by with_unfolding_all decide),
    c10_generated_tables_validate.2.2.2.2.2.2.2.2.2.2.1 [default]
      (by with_unfolding_all decide),
    c10_generated_tables_validate.2.2.2.2.2.2.2.2.2.2.2.1 [default]
      (by with_unfolding_all decide),
    c10_generated_tables_validate.2.2.2.2.2.2.2.2.2.2.2.2.1 [default]
      (by with_unfolding_all decide),
    c10_generated_tables_validate.2.2.2.2.2.2.2.2.2.2.2.2.2.1 [default]
      (by with_unfolding_all decide),
    c10_generated_tables_validate.2.2.2.2.2.2.2.2.2.2.2.2.2.2.1 [default]
      (by with_unfolding_all decide),
    c10_generated_tables_validate.2.2.2.2.2.2.2.2.2.2.2.2.2.2.2.1 [default]
      (by with_unfolding_all decide),
    c10_generated_tables_validate.2.2.2.2.2.2.2.2.2.2.2.2.2.2.2.2 [default]
      (by with_unfolding_all decide)⟩

end DemoData
